import Mathlib

/-!
Verification of the easyfitness WhatsApp booking engine.

Shallow embedding of the booking-relevant parts of the repository:
`utils/text_parser.py`, `services/extraction_service.py`,
`services/booking_service.py`, `services/customer_service.py`,
`constants.py` and the booking branch of `api/routes.py`.

External effects (HTTP calls to the scheduling provider, the language
model) are modelled as explicit environment values; machine integers are
Nat/Int; Python dictionaries that the code reads field-by-field are
modelled as structures of `Option` fields.
-/

namespace EasyFitness

/-! ### Python string primitives

Character-class helpers mirroring the Python `re`/`str` behaviour on the
character repertoire this codebase actually processes (ASCII plus the
German letters ä ö ü Ä Ö Ü ß that appear in its keyword lists). -/

/-- ASCII decimal digit, the `\d` class as used by the source's patterns. -/
def isDigitCh (c : Char) : Bool := c.isDigit

/-- Python `\s` whitespace class (ASCII part). -/
def isSpaceCh (c : Char) : Bool :=
  c = ' ' || c = '\t' || c = '\n' || c = '\x0d' || c = '\x0c' || c = '\x0b'

/-- Python `\w` word character, for `\b` boundaries: ASCII alphanumerics,
underscore, and the German letters. -/
def isWordCh (c : Char) : Bool :=
  c.isAlphanum || c = '_' || c = 'ä' || c = 'ö' || c = 'ü' || c = 'ß'
    || c = 'Ä' || c = 'Ö' || c = 'Ü'

/-- `str.isalpha` restricted to the repertoire above. -/
def isAlphaCh (c : Char) : Bool :=
  c.isAlpha || c = 'ä' || c = 'ö' || c = 'ü' || c = 'ß' || c = 'Ä' || c = 'Ö' || c = 'Ü'

/-- `str.lower` on the same repertoire. -/
def pyLowerChar (c : Char) : Char :=
  if c = 'Ä' then 'ä' else if c = 'Ö' then 'ö' else if c = 'Ü' then 'ü' else c.toLower

/-- `text.lower()`. -/
def pyLower (s : String) : String := String.mk (s.data.map pyLowerChar)

def digitVal (c : Char) : Nat := c.toNat - '0'.toNat

/-- Numeric value of a digit string, Python `int(s)` for all-digit `s`. -/
def natOfDigits (cs : List Char) : Nat := cs.foldl (fun n c => 10 * n + digitVal c) 0

/-- `s.zfill(2)` for the 1- or 2-character capture strings of this code. -/
def zfill2 (s : List Char) : List Char := if s.length < 2 then '0' :: s else s

/-- Drop a run of `\s*` whitespace. -/
def dropSpaces : List Char → List Char
  | [] => []
  | c :: rest => if isSpaceCh c then dropSpaces rest else c :: rest

/-- Whether `pat` occurs as a contiguous substring, Python's `pat in s`. -/
def containsSub (s pat : List Char) : Bool :=
  match s with
  | [] => pat.isEmpty
  | _ :: rest => pat.isPrefixOf s || containsSub rest pat

/-! ### `text_parser.extract_time_only`

`re.search(r'(\d{1,2}):(\d{2})', text)` and `re.search(r'(\d{1,2})\s*uhr',
text.lower())`, as leftmost-match scanners with the greedy 2-digit-first,
backtrack-to-1-digit behaviour of the quantifier `{1,2}`. -/

/-- Match `(\d{2}):(\d{2})` at the head of the list. -/
def matchTime2 : List Char → Option (List Char × List Char)
  | c1 :: c2 :: ':' :: m1 :: m2 :: _ =>
    if isDigitCh c1 && isDigitCh c2 && isDigitCh m1 && isDigitCh m2 then
      some ([c1, c2], [m1, m2])
    else none
  | _ => none

/-- Match `(\d):(\d{2})` at the head of the list. -/
def matchTime1 : List Char → Option (List Char × List Char)
  | c1 :: ':' :: m1 :: m2 :: _ =>
    if isDigitCh c1 && isDigitCh m1 && isDigitCh m2 then some ([c1], [m1, m2]) else none
  | _ => none

/-- `(\d{1,2}):(\d{2})` at one position: greedy two digits, then one. -/
def matchTimeAt (cs : List Char) : Option (List Char × List Char) :=
  (matchTime2 cs).orElse fun _ => matchTime1 cs

/-- Leftmost match of `(\d{1,2}):(\d{2})`. -/
def searchTime : List Char → Option (List Char × List Char)
  | [] => none
  | c :: rest => (matchTimeAt (c :: rest)).orElse fun _ => searchTime rest

/-- After the digits of `(\d{1,2})\s*uhr`: skip `\s*`, require literal `uhr`.
Since `uhr` cannot start with whitespace, consuming the whole run is the
only way the greedy `\s*` can succeed. -/
def matchUhrAfter (cs : List Char) : Bool :=
  match dropSpaces cs with
  | 'u' :: 'h' :: 'r' :: _ => true
  | _ => false

/-- `(\d{1,2})\s*uhr` at one position. -/
def matchUhrAt : List Char → Option (List Char)
  | [] => none
  | c1 :: rest =>
    if isDigitCh c1 then
      match rest with
      | [] => none
      | c2 :: rest2 =>
        if isDigitCh c2 && matchUhrAfter rest2 then some [c1, c2]
        else if matchUhrAfter rest then some [c1]
        else none
    else none

/-- Leftmost match of `(\d{1,2})\s*uhr`. -/
def searchUhr : List Char → Option (List Char)
  | [] => none
  | c :: rest => (matchUhrAt (c :: rest)).orElse fun _ => searchUhr rest

/-- The `X Uhr` pattern of `extract_time_only`, reached when the `HH:MM`
pattern yields no valid time. -/
def extract_time_uhr (text : String) : Option String :=
  match searchUhr (pyLower text).data with
  | some hs =>
    if natOfDigits hs ≤ 23 then some (String.mk (zfill2 hs ++ [':', '0', '0'])) else none
  | none => none

/-- `extract_time_only` (text_parser.py).  The `0 <= hour` / `0 <= minute`
halves of the source's range checks hold trivially for `Nat`. -/
def extract_time_only (text : String) : Option String :=
  match searchTime text.data with
  | some (hs, ms) =>
    if natOfDigits hs ≤ 23 && natOfDigits ms ≤ 59 then
      some (String.mk (zfill2 hs ++ ':' :: ms))
    else extract_time_uhr text
  | none => extract_time_uhr text

/-- Well-formedness of an emitted time string: exactly `HH:MM` with
hour ≤ 23 and minute ≤ 59 (i.e. never an invalid clamp). -/
def isValidHHMM (t : String) : Bool :=
  match t.data with
  | [h1, h2, ':', m1, m2] =>
    isDigitCh h1 && isDigitCh h2 && isDigitCh m1 && isDigitCh m2 &&
      natOfDigits [h1, h2] ≤ 23 && natOfDigits [m1, m2] ≤ 59
  | _ => false

/-! ### Calendar model (Python `datetime`)

Proleptic Gregorian calendar with the `datetime` year range 1–9999.
Instants are measured in seconds; a `datetime` value is a valid calendar
date plus a second-of-day. -/

def isLeapYear (y : Nat) : Bool := y % 4 = 0 && (y % 100 ≠ 0 || y % 400 = 0)

def daysInMonth (y m : Nat) : Nat :=
  if m = 2 then (if isLeapYear y then 29 else 28)
  else if m = 4 || m = 6 || m = 9 || m = 11 then 30
  else 31

/-- Cumulative days before month `m` in a non-leap year. -/
def daysBeforeMonthNL (m : Nat) : Nat :=
  match m with
  | 1 => 0 | 2 => 31 | 3 => 59 | 4 => 90 | 5 => 120 | 6 => 151
  | 7 => 181 | 8 => 212 | 9 => 243 | 10 => 273 | 11 => 304 | 12 => 334
  | _ => 0

def daysBeforeMonth (y m : Nat) : Nat :=
  daysBeforeMonthNL m + (if 2 < m && isLeapYear y then 1 else 0)

/-- `datetime(y, m, d)` succeeds exactly on these triples. -/
def isValidDate (y m d : Nat) : Bool :=
  1 ≤ y && y ≤ 9999 && 1 ≤ m && m ≤ 12 && 1 ≤ d && d ≤ daysInMonth y m

/-- Leap days strictly before year `y` (for `y ≥ 1`). -/
def leapsBefore (y : Nat) : Nat := (y - 1) / 4 - (y - 1) / 100 + (y - 1) / 400

/-- Rata-die day ordinal of a date (day 0 = 0001-01-01). -/
def dayOrdinal (y m d : Nat) : Nat :=
  365 * (y - 1) + leapsBefore y + daysBeforeMonth y m + (d - 1)

structure PyDateTime where
  y : Nat
  m : Nat
  d : Nat
  sec : Nat
deriving DecidableEq, Repr

/-- A plausible "current time": valid calendar date, a second-of-day, and the
year range in which the program can actually run (four-digit years with
room for the smart-year +1 and tomorrow/day-after-tomorrow arithmetic). -/
def validNow (t : PyDateTime) : Prop :=
  isValidDate t.y t.m t.d = true ∧ t.sec < 86400 ∧ 1000 ≤ t.y ∧ t.y ≤ 9998

instance (t : PyDateTime) : Decidable (validNow t) := by
  unfold validNow; infer_instance

/-- The instant of a `datetime`, in seconds on the rata-die timeline. -/
def toSecs (t : PyDateTime) : Int := (dayOrdinal t.y t.m t.d : Int) * 86400 + t.sec

/-- Midnight instant of a bare date, in seconds. -/
def dateSecs (y m d : Nat) : Int := (dayOrdinal y m d : Int) * 86400

/-- `date + timedelta(days=1)` on the date part. -/
def nextDay (y m d : Nat) : Nat × Nat × Nat :=
  if d < daysInMonth y m then (y, m, d + 1)
  else if m < 12 then (y, m + 1, 1)
  else (y + 1, 1, 1)

def pad2 (n : Nat) : List Char := [Nat.digitChar (n / 10 % 10), Nat.digitChar (n % 10)]

def pad4 (n : Nat) : List Char :=
  [Nat.digitChar (n / 1000 % 10), Nat.digitChar (n / 100 % 10),
   Nat.digitChar (n / 10 % 10), Nat.digitChar (n % 10)]

/-- `strftime("%Y-%m-%d")` (for the four-digit years admitted by `validNow`). -/
def formatYMD (y m d : Nat) : String :=
  String.mk (pad4 y ++ '-' :: pad2 m ++ '-' :: pad2 d)

/-- `datetime.strptime(s, "%Y-%m-%d")`: a four-digit year, one- or
two-digit month and day, nothing else, and a real calendar date. -/
def parseYMDStrict (s : String) : Option (Nat × Nat × Nat) :=
  let cs := s.data
  let ys := cs.takeWhile (· ≠ '-')
  match cs.dropWhile (· ≠ '-') with
  | '-' :: r2 =>
    let ms := r2.takeWhile (· ≠ '-')
    match r2.dropWhile (· ≠ '-') with
    | '-' :: ds =>
      if ys.length = 4 && ys.all isDigitCh &&
          (ms.length = 1 || ms.length = 2) && ms.all isDigitCh &&
          (ds.length = 1 || ds.length = 2) && ds.all isDigitCh then
        let y := natOfDigits ys
        let m := natOfDigits ms
        let d := natOfDigits ds
        if isValidDate y m d then some (y, m, d) else none
      else none
    | _ => none
  | _ => none

/-- `datetime.strptime(s, "%H:%M")`: a 1–2 digit hour ≤ 23, a literal
colon, a 1–2 digit minute ≤ 59, nothing else (the `%H`/`%M` regexes of
CPython's `_strptime`). -/
def parseHM (s : String) : Option (Nat × Nat) :=
  let cs := s.data
  let hs := cs.takeWhile (· ≠ ':')
  match cs.dropWhile (· ≠ ':') with
  | ':' :: ms =>
    if (hs.length = 1 || hs.length = 2) && hs.all isDigitCh &&
        (ms.length = 1 || ms.length = 2) && ms.all isDigitCh then
      let h := natOfDigits hs
      let m := natOfDigits ms
      if h ≤ 23 && m ≤ 59 then some (h, m) else none
    else none
  | _ => none

/-- `_build_date_with_smart_year` (text_parser.py): try the date in the
current year; if it lies more than 7 days in the past, roll to next year;
an invalid calendar date (the `ValueError` branch) gives `None`. -/
def build_date_with_smart_year (day month : Nat) (now : PyDateTime) : Option String :=
  let year := now.y
  if isValidDate year month day then
    if dateSecs year month day < toSecs now - 7 * 86400 then
      if isValidDate (year + 1) month day then some (formatYMD (year + 1) month day)
      else none
    else some (formatYMD year month day)
  else none

/-! ### `text_parser.extract_date_only`

The regex searches, as leftmost-match scanners.  In each date pattern the
capture `(\d{1,2})` is followed by a character that is never a digit
(`.`, a lookahead, a literal word), so the greedy quantifier commits to
the maximal 1–2 digit run with no observable backtracking. -/

/-- Maximal 1–2 digit capture at the head, with the rest. -/
def take12Digits : List Char → Option (List Char × List Char)
  | [] => none
  | c1 :: rest =>
    if isDigitCh c1 then
      match rest with
      | c2 :: rest2 => if isDigitCh c2 then some ([c1, c2], rest2) else some ([c1], rest)
      | [] => some ([c1], [])
    else none

/-- `\b` boundary against the preceding character (`none` = start of text). -/
def boundaryBefore : Option Char → Bool
  | none => true
  | some c => !isWordCh c

/-- Literal word at head of list followed by a `\b` boundary. -/
def wordAtBoundary (w cs : List Char) : Bool :=
  w.isPrefixOf cs &&
    (match cs.drop w.length with
     | [] => true
     | c :: _ => !isWordCh c)

/-- `re.search(r'\b<w>\b', s)` for a literal word `w`. -/
def searchWordB (w : List Char) : Option Char → List Char → Bool
  | _, [] => false
  | prev, c :: rest =>
    (boundaryBefore prev && wordAtBoundary w (c :: rest)) || searchWordB w (some c) rest

def hasWordMorgen (lower : String) : Bool :=
  searchWordB "morgen".data none lower.data

def hasWordUebermorgen (lower : String) : Bool :=
  searchWordB "übermorgen".data none lower.data

/-- `(\d{1,2})\.(\d{1,2})\.(\d{4})` at one position. -/
def matchFullDateAt (cs : List Char) : Option (List Char × List Char × List Char) :=
  match take12Digits cs with
  | some (day, r1) =>
    match r1 with
    | '.' :: r2 =>
      match take12Digits r2 with
      | some (mon, r3) =>
        match r3 with
        | '.' :: y1 :: y2 :: y3 :: y4 :: _ =>
          if isDigitCh y1 && isDigitCh y2 && isDigitCh y3 && isDigitCh y4 then
            some (day, mon, [y1, y2, y3, y4])
          else none
        | _ => none
      | none => none
    | _ => none
  | none => none

def searchFullDate : List Char → Option (List Char × List Char × List Char)
  | [] => none
  | c :: rest => (matchFullDateAt (c :: rest)).orElse fun _ => searchFullDate rest

/-- Negative lookahead `(?!\d)` / `(?!\d|\.)`. -/
def notDigitNext : List Char → Bool
  | [] => true
  | c :: _ => !isDigitCh c

def notDigitDotNext : List Char → Bool
  | [] => true
  | c :: _ => !(isDigitCh c || c = '.')

/-- `(\d{1,2})\.(\d{1,2})\.(?!\d)` at one position. -/
def matchShortDotAt (cs : List Char) : Option (List Char × List Char) :=
  match take12Digits cs with
  | some (day, r1) =>
    match r1 with
    | '.' :: r2 =>
      match take12Digits r2 with
      | some (mon, r3) =>
        match r3 with
        | '.' :: r4 => if notDigitNext r4 then some (day, mon) else none
        | _ => none
      | none => none
    | _ => none
  | none => none

def searchShortDateDot : List Char → Option (List Char × List Char)
  | [] => none
  | c :: rest => (matchShortDotAt (c :: rest)).orElse fun _ => searchShortDateDot rest

/-- One of the literal alternatives at the head of the list (after `\s*`),
returning the rest on success. -/
def matchAnyLiteral (ws : List (List Char)) (cs : List Char) : Option (List Char) :=
  match ws with
  | [] => none
  | w :: rest => if w.isPrefixOf cs then some (cs.drop w.length) else matchAnyLiteral rest cs

/-- Alternative 1 of the context pattern:
`(?:am|den|vom|bis|ab)\s*(\d{1,2})\.(\d{1,2})(?!\d|\.)`. -/
def matchCtxPrepAt (cs : List Char) : Option (List Char × List Char) :=
  match matchAnyLiteral ["am".data, "den".data, "vom".data, "bis".data, "ab".data] cs with
  | some r0 =>
    match take12Digits (dropSpaces r0) with
    | some (day, r1) =>
      match r1 with
      | '.' :: r2 =>
        match take12Digits r2 with
        | some (mon, r3) => if notDigitDotNext r3 then some (day, mon) else none
        | none => none
      | _ => none
    | none => none
  | none => none

/-- Alternative 2 of the context pattern:
`(\d{1,2})\.(\d{1,2})\s*(?:um|uhr|kommen|gehen|möchte)`. -/
def matchCtxVerbAt (cs : List Char) : Option (List Char × List Char) :=
  match take12Digits cs with
  | some (day, r1) =>
    match r1 with
    | '.' :: r2 =>
      match take12Digits r2 with
      | some (mon, r3) =>
        match matchAnyLiteral ["um".data, "uhr".data, "kommen".data, "gehen".data,
            "möchte".data] (dropSpaces r3) with
        | some _ => some (day, mon)
        | none => none
      | none => none
    | _ => none
  | none => none

/-- The two-alternative context pattern of `extract_date_only`, searched
left to right with alternative 1 preferred at each position. -/
def searchShortContext : List Char → Option (List Char × List Char)
  | [] => none
  | c :: rest =>
    ((matchCtxPrepAt (c :: rest)).orElse fun _ => matchCtxVerbAt (c :: rest)).orElse
      fun _ => searchShortContext rest

/-- `extract_date_only` (text_parser.py). -/
def extract_date_only (text : String) (now : PyDateTime) : Option String :=
  let lower := pyLower text
  if hasWordMorgen lower && !hasWordUebermorgen lower then
    let t := nextDay now.y now.m now.d
    some (formatYMD t.1 t.2.1 t.2.2)
  else if hasWordUebermorgen lower then
    let t1 := nextDay now.y now.m now.d
    let t2 := nextDay t1.1 t1.2.1 t1.2.2
    some (formatYMD t2.1 t2.2.1 t2.2.2)
  else
    match searchFullDate text.data with
    | some (day, mon, year) =>
      some (String.mk (year ++ '-' :: zfill2 mon ++ '-' :: zfill2 day))
    | none =>
      match searchShortDateDot text.data with
      | some (day, mon) =>
        build_date_with_smart_year (natOfDigits day) (natOfDigits mon) now
      | none =>
        match searchShortContext lower.data with
        | some (day, mon) =>
          build_date_with_smart_year (natOfDigits day) (natOfDigits mon) now
        | none => none

/-! ### `constants.py` -/

namespace CustomerStatus

def NEW_LEAD : String := "neuer Interessent"
def NAME_KNOWN : String := "Name bekannt"
def TRIAL_BOOKED : String := "Beratungstermin gebucht"
def MEMBER : String := "Mitglied"

end CustomerStatus

namespace BotMessages

def DEFAULT_NAME : String := "du"
def BOOKING_SUCCESS : String := "Termin gebucht! Bestätigung per E-Mail unterwegs."
def BOOKING_SLOT_UNAVAILABLE : String := "Slot nicht verfügbar - probier ein anderes Datum."
def BOOKING_GENERIC_ERROR : String := "Leider nicht verfügbar - wähle ein anderes Datum."
def BOOKING_VALIDATION_FAILED : String :=
  "Deine Daten konnten nicht validiert werden. Bitte überprüfe Name und E-Mail."
def BOOKING_LEAD_CREATION_FAILED : String :=
  "Lead konnte nicht erstellt werden. Bitte versuche es erneut."
def BOOKING_SERVER_ERROR : String :=
  "Technisches Problem beim Buchungssystem. Bitte versuche es in ein paar Minuten erneut."
def BOOKING_NETWORK_ERROR : String :=
  "Verbindungsproblem zum Buchungssystem. Bitte versuche es erneut."

def slot_unavailable_with_alternatives (alternatives : List String) : String :=
  match alternatives.map (fun time => time ++ " Uhr") with
  | [] => BOOKING_SLOT_UNAVAILABLE
  | [a] => "Diese Zeit ist leider belegt. Wie wäre es um " ++ a ++ "?"
  | [a, b] => "Diese Zeit ist leider belegt. Verfügbar wäre: " ++ a ++ " oder " ++ b ++ "."
  | formatted =>
    let last := formatted.getLastD ""
    let rest := String.intercalate ", " formatted.dropLast
    "Diese Zeit ist leider belegt. Verfügbar wäre: " ++ rest ++ " oder " ++ last ++ "."

def missing_time (dateGerman : String) : String :=
  "Um welche Uhrzeit möchtest du am " ++ dateGerman ++ " vorbeikommen? 🕐"

def missing_booking_data (fields : List String) : String :=
  "Um deinen Termin zu buchen, brauche ich noch: " ++ String.intercalate ", " fields ++
    ". Kannst du mir diese Infos geben? 📝"

end BotMessages

/-- Python truthiness of an optional string (`None` and `""` are falsy). -/
def pyTruthy : Option String → Bool
  | none => false
  | some s => s ≠ ""

/-- Python `a or b` on optional strings. -/
def pyOrStr (a b : Option String) : Option String := if pyTruthy a then a else b

/-- Python truthiness of an optional int (`None` and `0` are falsy). -/
def pyTruthyInt : Option Int → Bool
  | none => false
  | some i => i ≠ 0

/-- `s.split(sep)` for a one-character separator. -/
def splitOnChar (sep : Char) : List Char → List (List Char)
  | [] => [[]]
  | x :: rest =>
    let r := splitOnChar sep rest
    if x = sep then [] :: r
    else
      match r with
      | h :: t => (x :: h) :: t
      | [] => [[x]]

/-- `str.strip()` (ASCII whitespace). -/
def pyStrip (s : String) : String :=
  String.mk (((s.data.dropWhile isSpaceCh).reverse.dropWhile isSpaceCh).reverse)

/-- `format_date_german` (constants.py). -/
def format_date_german (dateStr : String) : String :=
  match splitOnChar '-' dateStr.data with
  | [y, m, d] => String.mk (d ++ '.' :: m ++ '.' :: y)
  | _ => dateStr

/-- `build_datetime_iso` (constants.py); the timezone offset computed by
`get_timezone_offset()` is passed in by the caller. -/
def build_datetime_iso (datum uhrzeit : Option String) (tzOffset : String) : Option String :=
  if pyTruthy datum && pyTruthy uhrzeit then
    some (datum.getD "" ++ "T" ++ uhrzeit.getD "" ++ ":00" ++ tzOffset)
  else none

/-- `validate_email` (constants.py): the anchored pattern
`^[a-zA-Z0-9._%+-]+@[a-zA-Z0-9.-]+\.[a-zA-Z]{2,}$`.  Because the final
`[a-zA-Z]{2,}$` run admits no dot, the greedy domain part must backtrack
to the last dot, so the pattern is equivalent to splitting at the last
dot of the domain. -/
def isEmailLocalCh (c : Char) : Bool :=
  c.isAlphanum || c = '.' || c = '_' || c = '%' || c = '+' || c = '-'

def isEmailDomainCh (c : Char) : Bool := c.isAlphanum || c = '.' || c = '-'

def emailPatternMatch (cs : List Char) : Bool :=
  match splitOnChar '@' cs with
  | [localPart, domainPart] =>
    let tld := (domainPart.reverse.takeWhile (· ≠ '.')).reverse
    let front := domainPart.take (domainPart.length - tld.length - 1)
    decide (localPart ≠ []) && localPart.all isEmailLocalCh &&
      decide (domainPart.length ≥ tld.length + 2) &&
      decide (front ≠ []) && front.all isEmailDomainCh &&
      decide (tld.length ≥ 2) && tld.all (fun c => c.isAlpha)
  | _ => false

def validate_email (email : Option String) : Bool :=
  match email with
  | none => false
  | some e => if e = "" then false else emailPatternMatch (pyStrip e).data

/-- `validate_name` (constants.py). -/
def validate_name (name : Option String) : Bool :=
  match name with
  | none => false
  | some n0 =>
    if n0 = "" then false
    else
      let n := pyLower (pyStrip n0)
      if n.length < 2 then false
      else if ["der", "die", "das", "ich", "du", "und", "oder", "ein", "eine"].contains n then
        false
      else n.data.any isAlphaCh

/-- `_is_valid_name` (text_parser.py).  The source compares
`letter_count >= len(name) * 0.8` in floating point; for the lengths it
admits (2–30) the double `len * 0.8` rounds so that the comparison agrees
with the exact rational test `5 * letters ≥ 4 * len` used here. -/
def is_valid_name (name : String) : Bool :=
  if name = "" || name.length < 2 || name.length > 30 then false
  else 5 * (name.data.filter isAlphaCh).length ≥ 4 * name.length

/-! ### `services/booking_service.py`

The provider's HTTP endpoints are modelled by an environment of
per-endpoint responses: either a transport exception
(`requests.RequestException`) or a status code with the parsed JSON body
and the raw response text. -/

inductive HttpResp (β : Type) where
  | exception (msg : String)
  | ok (status : Nat) (body : β) (text : String)
deriving DecidableEq, Repr

/-- One slot dictionary as returned by the day-level slots endpoint. -/
structure Slot where
  startDateTime : Option String := none
  start : Option String := none
  startTime : Option String := none
deriving DecidableEq, Repr

/-- `slot.get("startDateTime") or slot.get("start") or slot.get("startTime")`. -/
def slotStart (s : Slot) : Option String :=
  pyOrStr s.startDateTime (pyOrStr s.start s.startTime)

/-- `_extract_date_from_datetime`. -/
def extract_date_from_datetime (iso : String) : Option String :=
  if iso = "" then none else some (String.mk (iso.data.take 10))

/-- `_extract_time_from_datetime`: the 5-character prefix of the segment
after the first `T`. -/
def extract_time_from_datetime (iso : Option String) : Option String :=
  match iso with
  | none => none
  | some s =>
    if s = "" then none
    else if s.data.contains 'T' then
      some (String.mk (((s.data.dropWhile (· ≠ 'T')).drop 1).takeWhile (· ≠ 'T') |>.take 5))
    else none

/-- `int(s)` for a signed digit string (the shapes reaching
`_time_to_minutes`), `None` on anything else (`ValueError`). -/
def pyInt (s : List Char) : Option Int :=
  match s with
  | '-' :: rest =>
    if rest ≠ [] && rest.all isDigitCh then some (-(natOfDigits rest : Int)) else none
  | '+' :: rest =>
    if rest ≠ [] && rest.all isDigitCh then some (natOfDigits rest : Int) else none
  | _ => if s ≠ [] && s.all isDigitCh then some (natOfDigits s : Int) else none

/-- `_time_to_minutes`. -/
def time_to_minutes (time : String) : Option Int :=
  if time = "" || !time.data.contains ':' then none
  else
    match splitOnChar ':' time.data with
    | h :: m :: _ =>
      match pyInt h, pyInt m with
      | some hv, some mv => some (hv * 60 + mv)
      | _, _ => none
    | _ => none

/-- `_is_slot_in_list`. -/
def is_slot_in_list (target : String) (slots : List Slot) : Bool :=
  if target = "" || slots.isEmpty then false
  else
    match extract_time_from_datetime (some target) with
    | none => false
    | some tt =>
      if tt = "" then false
      else
        slots.any fun slot =>
          match slotStart slot with
          | none => false
          | some ss =>
            if ss = "" then false else extract_time_from_datetime (some ss) = some tt

/-- Sorting key order of `_get_alternative_slots`: by recorded distance. -/
def distLE (a b : String × Int) : Prop := a.2 ≤ b.2

instance : DecidableRel distLE := fun a b => inferInstanceAs (Decidable (a.2 ≤ b.2))

instance : IsTotal (String × Int) distLE := ⟨fun a b => Int.le_total a.2 b.2⟩

instance : IsTrans (String × Int) distLE := ⟨fun _ _ _ h1 h2 => le_trans h1 h2⟩

/-- The `(slot_time, distance)` pairs collected by `_get_alternative_slots`. -/
def slotDistancePairs (targetMinutes : Int) (slots : List Slot) : List (String × Int) :=
  slots.filterMap fun slot =>
    match slotStart slot with
    | none => none
    | some ss =>
      if ss = "" then none
      else
        match extract_time_from_datetime (some ss) with
        | none => none
        | some st =>
          if st = "" then none
          else
            match time_to_minutes st with
            | none => none
            | some sm => some (st, |sm - targetMinutes|)

/-- `_get_alternative_slots`.  Python's `list.sort` is stable, and a
stable sort's output is determined by the key alone, so the stable
`insertionSort` below computes the same list. -/
def get_alternative_slots (target : String) (slots : List Slot) (maxAlternatives : Nat) :
    List String :=
  if slots.isEmpty then []
  else
    let targetTime := extract_time_from_datetime (some target)
    if !pyTruthy targetTime then
      (slots.take maxAlternatives).filterMap fun slot =>
        match slotStart slot with
        | none => none
        | some ss =>
          if ss = "" then none
          else
            match extract_time_from_datetime (some ss) with
            | none => none
            | some ts => if ts = "" then none else some ts
    else
      match time_to_minutes (targetTime.getD "") with
      | none => []
      | some tm =>
        (((slotDistancePairs tm slots).insertionSort distLE).take maxAlternatives).map
          Prod.fst

/-- Result shape of `get_available_slots`. -/
structure SlotsResult where
  success : Bool
  slots : List Slot
  error : Option String := none
  isNetworkError : Bool := false
deriving DecidableEq, Repr

/-- `get_available_slots`: the source normalizes list- or dict-shaped
bodies to a slot list; the environment carries that normalized list. -/
def get_available_slots (resp : HttpResp (List Slot)) : SlotsResult :=
  match resp with
  | .ok status body text =>
    if status = 200 then { success := true, slots := body }
    else { success := false, slots := [], error := some text }
  | .exception msg =>
    { success := false, slots := [], error := some msg, isNetworkError := true }

structure SlotCheck where
  available : Bool
  alternatives : List String
  error : Option String
  apiError : Bool
deriving DecidableEq, Repr

/-- `check_slot_availability`. -/
def check_slot_availability (slotsResp : HttpResp (List Slot)) (startDT : String) :
    SlotCheck :=
  match extract_date_from_datetime startDT with
  | none =>
    { available := false, alternatives := [], error := some "Invalid datetime format",
      apiError := true }
  | some _ =>
    let sr := get_available_slots slotsResp
    if !sr.success then
      { available := false, alternatives := [], error := some (sr.error.getD "Unknown error"),
        apiError := true }
    else if sr.slots.isEmpty then
      { available := false, alternatives := [],
        error := some "No slots available on this day", apiError := false }
    else if is_slot_in_list startDT sr.slots then
      { available := true, alternatives := [], error := none, apiError := false }
    else
      { available := false, alternatives := get_alternative_slots startDT sr.slots 3,
        error := none, apiError := false }

/-- Parsed JSON body of the slot-validation endpoints. -/
structure VSBody where
  validationStatus : Option String := none
  error : Option String := none
deriving DecidableEq, Repr

/-- `validate_slot`: on a transport exception an error-shaped dict;
otherwise `response.json()` is returned as-is — the HTTP status code is
never inspected. -/
def validate_slot (resp : HttpResp VSBody) : VSBody :=
  match resp with
  | .exception msg => { validationStatus := some "ERROR", error := some msg }
  | .ok _ body _ => body

/-- Parsed JSON body of the booking endpoints (`success` may be
overridden by the provider's own `"success"` key via `{**json}`). -/
structure BookBody where
  success : Option Bool := none
  bookingId : Option Nat := none
deriving DecidableEq, Repr

structure BookResult where
  success : Bool
  bookingId : Option Nat := none
  error : Option String := none
deriving DecidableEq, Repr

/-- `book_appointment` and `book_appointment_for_lead` (identical result
handling). -/
def book_appointment (resp : HttpResp BookBody) : BookResult :=
  match resp with
  | .ok status body text =>
    if status = 200 then { success := body.success.getD true, bookingId := body.bookingId }
    else { success := false, error := some text }
  | .exception msg => { success := false, error := some msg }

/-- `try_book` (registered-customer flow).  `customerId`, `startDT` and
`durationMinutes` only shape the HTTP payloads, which the environment's
responses already account for. -/
def try_book (vresp : HttpResp VSBody) (bresp : HttpResp BookBody) (_customerId : Int)
    (_startDT : String) (_durationMinutes : Nat) :
    Bool × String × Option Nat :=
  let validation := validate_slot vresp
  if validation.validationStatus ≠ some "AVAILABLE" then
    (false, BotMessages.BOOKING_SLOT_UNAVAILABLE, none)
  else
    let booking := book_appointment bresp
    if booking.success then (true, BotMessages.BOOKING_SUCCESS, booking.bookingId)
    else (false, BotMessages.BOOKING_GENERIC_ERROR, none)

/-- Parsed JSON body of the lead validation/creation endpoints. -/
structure LeadBody where
  success : Option Bool := none
  leadCustomerId : Option Int := none
deriving DecidableEq, Repr

structure LeadResult where
  success : Bool
  statusCode : Nat
  isNetworkError : Bool
  leadCustomerId : Option Int := none
  error : Option String := none
deriving DecidableEq, Repr

/-- Shared result handling of `validate_lead` and `create_lead` (their
bodies are identical up to the endpoint URL). -/
def leadEndpointResult (resp : HttpResp LeadBody) : LeadResult :=
  match resp with
  | .ok status body text =>
    if status = 200 then
      { success := body.success.getD true, statusCode := 200, isNetworkError := false,
        leadCustomerId := body.leadCustomerId }
    else
      { success := false, statusCode := status, isNetworkError := false, error := some text }
  | .exception msg =>
    { success := false, statusCode := 0, isNetworkError := true, error := some msg }

def validate_lead (resp : HttpResp LeadBody) : LeadResult := leadEndpointResult resp

def create_lead (resp : HttpResp LeadBody) : LeadResult := leadEndpointResult resp

/-- Parsed JSON body of the lead-appointment validation endpoint. -/
structure VABody where
  success : Option Bool := none
  validationStatus : Option String := none
deriving DecidableEq, Repr

structure VAResult where
  success : Bool
  validationStatus : Option String := none
  error : Option String := none
deriving DecidableEq, Repr

/-- `validate_appointment_for_lead`. -/
def validate_appointment_for_lead (resp : HttpResp VABody) : VAResult :=
  match resp with
  | .ok status body text =>
    if status = 200 then
      { success := body.success.getD true, validationStatus := body.validationStatus }
    else { success := false, error := some text }
  | .exception msg => { success := false, error := some msg }

/-- The provider environment for one booking attempt: the response each
endpoint would give if called during this turn. -/
structure MLEnv where
  slotsResp : HttpResp (List Slot)
  validateSlotResp : HttpResp VSBody
  bookResp : HttpResp BookBody
  validateLeadResp : HttpResp LeadBody
  createLeadResp : HttpResp LeadBody
  validateApptResp : HttpResp VABody
  bookApptResp : HttpResp BookBody

/-- How many times each provider endpoint was invoked. -/
structure CallLog where
  getSlots : Nat := 0
  validateLead : Nat := 0
  createLead : Nat := 0
  validateAppt : Nat := 0
  bookAppt : Nat := 0
deriving DecidableEq, Repr

/-- `try_book_trial_offer` (new-lead flow), instrumented with the call
log.  The day-slots fetch inside the pre-check happens only when the
date can be extracted from `startDT` (a non-empty string). -/
def try_book_trial_offer (env : MLEnv) (_firstName _lastName _email : String)
    (startDT : String) (_durationMinutes : Nat) :
    (Bool × String × Option Nat) × CallLog :=
  let preLog : CallLog := { getSlots := if startDT = "" then 0 else 1 }
  -- Step 0: pre-check
  let slotCheck := check_slot_availability env.slotsResp startDT
  let early : Option (Bool × String × Option Nat) :=
    if !slotCheck.apiError then
      if !slotCheck.available then
        if !slotCheck.alternatives.isEmpty then
          some (false, BotMessages.slot_unavailable_with_alternatives slotCheck.alternatives,
            none)
        else some (false, BotMessages.BOOKING_SLOT_UNAVAILABLE, none)
      else none
    else none
  match early with
  | some r => (r, preLog)
  | none =>
    -- Step 1: validate lead
    let lv := validate_lead env.validateLeadResp
    let log1 : CallLog := { preLog with validateLead := 1 }
    if !lv.success then
      if lv.isNetworkError then ((false, BotMessages.BOOKING_NETWORK_ERROR, none), log1)
      else if lv.statusCode ≥ 500 then ((false, BotMessages.BOOKING_SERVER_ERROR, none), log1)
      else ((false, BotMessages.BOOKING_VALIDATION_FAILED, none), log1)
    else
      -- Step 2: create lead
      let lc := create_lead env.createLeadResp
      let log2 : CallLog := { log1 with createLead := 1 }
      if !lc.success then
        if lc.isNetworkError then ((false, BotMessages.BOOKING_NETWORK_ERROR, none), log2)
        else if lc.statusCode ≥ 500 then
          ((false, BotMessages.BOOKING_SERVER_ERROR, none), log2)
        else ((false, BotMessages.BOOKING_LEAD_CREATION_FAILED, none), log2)
      else
        if !pyTruthyInt lc.leadCustomerId then
          ((false, BotMessages.BOOKING_LEAD_CREATION_FAILED, none), log2)
        else
          -- Step 3: validate slot for the lead
          let bv := validate_appointment_for_lead env.validateApptResp
          let log3 : CallLog := { log2 with validateAppt := 1 }
          if !bv.success then ((false, BotMessages.BOOKING_SLOT_UNAVAILABLE, none), log3)
          else if bv.validationStatus ≠ some "AVAILABLE" then
            ((false, BotMessages.BOOKING_SLOT_UNAVAILABLE, none), log3)
          else
            -- Step 4: book for the lead
            let bk := book_appointment env.bookApptResp
            let log4 : CallLog := { log3 with bookAppt := 1 }
            if bk.success then ((true, BotMessages.BOOKING_SUCCESS, bk.bookingId), log4)
            else ((false, BotMessages.BOOKING_GENERIC_ERROR, none), log4)

/-! ### `services/customer_service.py`

The per-phone customer record.  The booking engine manipulates one
customer per turn, so the state threaded here is that customer's record;
conversation history is untouched by the embedded operations and is
omitted. -/

/-- The `_default_profil` template: every key the profile dictionary can
hold.  `magicline_customer_id` is an integer id, `last_booking_id` a
booking id; all other fields are strings. -/
structure Profil where
  magicline_customer_id : Option Int := none
  vorname : Option String := none
  nachname : Option String := none
  datum : Option String := none
  uhrzeit : Option String := none
  alter : Option String := none
  geschlecht : Option String := none
  wohnort : Option String := none
  beruf : Option String := none
  email : Option String := none
  fitness_ziel : Option String := none
  fitness_level : Option String := none
  fitness_erfahrung : Option String := none
  trainingsfrequenz : Option String := none
  aktuelles_studio : Option String := none
  gesundheitliche_einschraenkungen : Option String := none
  budget_bewusst : Option String := none
  zeitfenster : Option String := none
  entscheidungstraeger : Option String := none
  dringlichkeit : Option String := none
  wie_gefunden : Option String := none
  interesse_level : Option String := none
  probetraining_datum : Option String := none
  follow_up_datum : Option String := none
  last_booking_id : Option Nat := none
deriving DecidableEq, Repr

/-- A partial update passed to `update_profil`: `none` is a key that is
absent or carries `None` (treated identically by the source's
`value is not None` test).  `name` and `status` are keys that are not in
the profile template — the update loop skips them (`key in
customer["profil"]`), but the tail of `update_profil` reads them. -/
structure ProfilUpdate where
  magicline_customer_id : Option Int := none
  vorname : Option String := none
  nachname : Option String := none
  datum : Option String := none
  uhrzeit : Option String := none
  alter : Option String := none
  geschlecht : Option String := none
  wohnort : Option String := none
  beruf : Option String := none
  email : Option String := none
  fitness_ziel : Option String := none
  fitness_level : Option String := none
  fitness_erfahrung : Option String := none
  trainingsfrequenz : Option String := none
  aktuelles_studio : Option String := none
  gesundheitliche_einschraenkungen : Option String := none
  budget_bewusst : Option String := none
  zeitfenster : Option String := none
  entscheidungstraeger : Option String := none
  dringlichkeit : Option String := none
  wie_gefunden : Option String := none
  interesse_level : Option String := none
  probetraining_datum : Option String := none
  follow_up_datum : Option String := none
  last_booking_id : Option Nat := none
  name : Option String := none
  status : Option String := none
deriving DecidableEq, Repr

structure Customer where
  name : String
  status : String
  profil : Profil
deriving DecidableEq, Repr

/-- The record `get` creates for an unknown phone number. -/
def defaultCustomer : Customer :=
  { name := BotMessages.DEFAULT_NAME, status := CustomerStatus.NEW_LEAD, profil := {} }

/-- `if value is not None: customer["profil"][key] = value`. -/
def mergeField {α : Type} (newVal oldVal : Option α) : Option α :=
  match newVal with
  | some v => some v
  | none => oldVal

/-- `update_profil` (customer_service.py). -/
def update_profil (c : Customer) (u : ProfilUpdate) : Customer :=
  let p := c.profil
  let p' : Profil :=
    { magicline_customer_id := mergeField u.magicline_customer_id p.magicline_customer_id
      vorname := mergeField u.vorname p.vorname
      nachname := mergeField u.nachname p.nachname
      datum := mergeField u.datum p.datum
      uhrzeit := mergeField u.uhrzeit p.uhrzeit
      alter := mergeField u.alter p.alter
      geschlecht := mergeField u.geschlecht p.geschlecht
      wohnort := mergeField u.wohnort p.wohnort
      beruf := mergeField u.beruf p.beruf
      email := mergeField u.email p.email
      fitness_ziel := mergeField u.fitness_ziel p.fitness_ziel
      fitness_level := mergeField u.fitness_level p.fitness_level
      fitness_erfahrung := mergeField u.fitness_erfahrung p.fitness_erfahrung
      trainingsfrequenz := mergeField u.trainingsfrequenz p.trainingsfrequenz
      aktuelles_studio := mergeField u.aktuelles_studio p.aktuelles_studio
      gesundheitliche_einschraenkungen :=
        mergeField u.gesundheitliche_einschraenkungen p.gesundheitliche_einschraenkungen
      budget_bewusst := mergeField u.budget_bewusst p.budget_bewusst
      zeitfenster := mergeField u.zeitfenster p.zeitfenster
      entscheidungstraeger := mergeField u.entscheidungstraeger p.entscheidungstraeger
      dringlichkeit := mergeField u.dringlichkeit p.dringlichkeit
      wie_gefunden := mergeField u.wie_gefunden p.wie_gefunden
      interesse_level := mergeField u.interesse_level p.interesse_level
      probetraining_datum := mergeField u.probetraining_datum p.probetraining_datum
      follow_up_datum := mergeField u.follow_up_datum p.follow_up_datum
      last_booking_id := mergeField u.last_booking_id p.last_booking_id }
  let c1 := { c with profil := p' }
  let c2 :=
    if pyTruthy u.vorname then { c1 with name := u.vorname.getD "" }
    else if pyTruthy u.name then { c1 with name := u.name.getD "" }
    else c1
  if pyTruthy u.status then { c2 with status := u.status.getD "" } else c2

/-- `update_status` (customer_service.py). -/
def update_status (c : Customer) (status : String) : Customer := { c with status := status }

/-- Modelled from the spec: `CustomerService.add_booking` is invoked by
the routes layer on booking success but is not defined in the
repository's source; §4.3 of the spec requires "On success, persist
`lastBookingId`", and the profile template reserves the
`last_booking_id` key for it.  Modelled as writing the booking id into
that field. -/
def add_booking (c : Customer) (bookingId : Option Nat) (_appointmentDT : String)
    (_bookingType : String) : Customer :=
  { c with profil := { c.profil with last_booking_id := bookingId } }

/-! ### `services/extraction_service.py` -/

/-- The five-field extraction result (LM-side and merged). -/
structure ExtractionData where
  vorname : Option String := none
  nachname : Option String := none
  email : Option String := none
  datum : Option String := none
  uhrzeit : Option String := none
deriving DecidableEq, Repr

/-- `_validate_extracted_data`: drops malformed fields.  The date check
parses `%Y-%m-%d`, rejects years before 2020, dates more than 365 days
in the future, and dates more than 7 days in the past.  Note that no
part of this function sees the customer's message text. -/
def validate_extracted_data (now : PyDateTime) (data : ExtractionData) : ExtractionData :=
  let email := if pyTruthy data.email && !validate_email data.email then none else data.email
  let vorname :=
    if pyTruthy data.vorname && !validate_name data.vorname then none else data.vorname
  let nachname :=
    if pyTruthy data.nachname && !validate_name data.nachname then none else data.nachname
  let datum :=
    if pyTruthy data.datum then
      match parseYMDStrict (data.datum.getD "") with
      | none => none
      | some (y, m, d) =>
        if y < 2020 then none
        else if dateSecs y m d > toSecs now + 365 * 86400 then none
        else if dateSecs y m d < toSecs now - 7 * 86400 then none
        else data.datum
    else data.datum
  let uhrzeit :=
    if pyTruthy data.uhrzeit then
      match parseHM (data.uhrzeit.getD "") with
      | none => none
      | some _ => data.uhrzeit
    else data.uhrzeit
  { vorname := vorname, nachname := nachname, email := email, datum := datum,
    uhrzeit := uhrzeit }

/-- `extract_customer_data`: the opaque LM call and the robust JSON
parsing of its reply are modelled by the already-parsed `lmResult`; the
message `text` flows only into the LM prompt and is never consulted by
the validation step. -/
def extract_customer_data (lmResult : ExtractionData) (_text : String) (now : PyDateTime) :
    ExtractionData :=
  validate_extracted_data now lmResult

/-- Modelled from the spec: the date-bearing-cue test of the §4.2
hallucination guard — an explicit `DD.MM[.]` pattern, a weekday name, or
one of the relative-date keywords heute / morgen / übermorgen / nächste
woche / diese woche.  The guard is absent from the source; this
predicate only states the claim's hypothesis. -/
def hasDateCue (text : String) : Bool :=
  let lower := pyLower text
  (searchShortDateDot lower.data).isSome || (searchFullDate lower.data).isSome ||
    (searchShortContext lower.data).isSome ||
    (["montag", "dienstag", "mittwoch", "donnerstag", "freitag", "samstag",
      "sonntag"].any fun w => containsSub lower.data w.data) ||
    (["heute", "morgen", "übermorgen", "nächste woche", "diese woche"].any fun w =>
      containsSub lower.data w.data)

/-! ### `text_parser.extract_booking_intent` -/

/-- `\d{1,2}\.\d{1,2}\.\d{2,4}` at one position (a match needs only the
first two year digits; `{2,4}` is greedy but existence is what the
caller tests). -/
def matchNumDateYYAt (cs : List Char) : Bool :=
  match take12Digits cs with
  | some (_, r1) =>
    (match r1 with
     | '.' :: r2 =>
       (match take12Digits r2 with
        | some (_, r3) =>
          (match r3 with
           | '.' :: y1 :: y2 :: _ => isDigitCh y1 && isDigitCh y2
           | _ => false)
        | none => false)
     | _ => false)
  | none => false

/-- `\d{1,2}\.\d{1,2}\.` at one position. -/
def matchNumDateDotAt (cs : List Char) : Bool :=
  match take12Digits cs with
  | some (_, r1) =>
    (match r1 with
     | '.' :: r2 =>
       (match take12Digits r2 with
        | some (_, r3) =>
          (match r3 with
           | '.' :: _ => true
           | _ => false)
        | none => false)
     | _ => false)
  | none => false

/-- Alternative-2 shape with a caller-chosen word list (the intent
pattern omits `möchte`). -/
def matchCtxVerbWordsAt (ws : List (List Char)) (cs : List Char) : Bool :=
  match take12Digits cs with
  | some (_, r1) =>
    (match r1 with
     | '.' :: r2 =>
       (match take12Digits r2 with
        | some (_, r3) => (matchAnyLiteral ws (dropSpaces r3)).isSome
        | none => false)
     | _ => false)
  | none => false

def existsPos (p : List Char → Bool) : List Char → Bool
  | [] => false
  | c :: rest => p (c :: rest) || existsPos p rest

/-- The customer-context dictionary built by the routes layer. -/
structure CustomerContext where
  has_booking_data : Bool
  has_partial_datetime : Bool
deriving DecidableEq, Repr

/-- `extract_booking_intent` (text_parser.py). -/
def extract_booking_intent (text reply : String) (ctx : Option CustomerContext) : Bool :=
  let combined := pyLower (text ++ reply)
  let cs := combined.data
  let bookingKeywords : List String :=
    ["probetraining", "probentraining", "probe training",
     "termin", "buchen", "buchung", "gebucht",
     "anmelden", "anmeldung", "reservieren", "reservierung",
     "training machen", "training buchen",
     "vorbeikommen", "vorbei kommen",
     "ausprobieren", "testen", "probieren",
     "einbuchen", "eintragen"]
  let hasBookingKeyword := bookingKeywords.any fun kw => containsSub cs kw.data
  let hasDate :=
    existsPos matchNumDateYYAt cs ||
    existsPos matchNumDateDotAt cs ||
    existsPos (fun l => (matchCtxPrepAt l).isSome) cs ||
    existsPos (matchCtxVerbWordsAt ["um".data, "uhr".data, "kommen".data, "gehen".data]) cs ||
    (["montag", "dienstag", "mittwoch", "donnerstag", "freitag", "samstag",
      "sonntag"].any fun w => containsSub cs w.data) ||
    (["morgen", "übermorgen", "nächste woche", "diese woche"].any fun w =>
      containsSub cs w.data)
  let hasTime := (searchTime cs).isSome || (searchUhr cs).isSome
  if hasBookingKeyword && (hasDate || hasTime) then true
  else
    match ctx with
    | some c =>
      if c.has_booking_data && (hasDate || hasTime) then true
      else if c.has_partial_datetime && (hasDate || hasTime) then true
      else false
    | none => false

/-! ### `api/routes.py` — `_handle_booking_if_needed` -/

/-- The booking branch of the routes layer: given the turn's message,
the LM draft reply, the merged extraction data, the stored customer
record, the provider environment, the current time and the timezone
offset, produce the reply to send and the updated customer record. -/
def handle_booking_if_needed (text reply : String) (extractedData : ExtractionData)
    (customer : Customer) (env : MLEnv) (now : PyDateTime) (tzOffset : String) :
    String × Customer :=
  let profil := customer.profil
  -- STEP 1: load stored profile data
  let storedVorname := profil.vorname
  let storedNachname := profil.nachname
  let storedEmail := profil.email
  let storedDate := profil.datum
  let storedTime := profil.uhrzeit
  let allDataComplete := pyTruthy storedVorname && pyTruthy storedNachname &&
    pyTruthy storedEmail && pyTruthy storedDate && pyTruthy storedTime
  let hasBookingData := pyTruthy storedVorname && pyTruthy storedNachname &&
    pyTruthy storedEmail
  let hasPartialDatetime := pyTruthy storedDate || pyTruthy storedTime
  let ctx : CustomerContext :=
    { has_booking_data := hasBookingData, has_partial_datetime := hasPartialDatetime }
  let bookingIntent := extract_booking_intent text reply (some ctx)
  let bookingIntent := if allDataComplete && !bookingIntent then true else bookingIntent
  if !bookingIntent then (reply, customer)
  else
    -- STEP 2: extract from the current message, regex first, LM fallback
    let newDate := extract_date_only text now
    let newTime := extract_time_only text
    let newDate :=
      if !pyTruthy newDate then
        if pyTruthy extractedData.datum then extractedData.datum else newDate
      else newDate
    let newTime :=
      if !pyTruthy newTime then
        if pyTruthy extractedData.uhrzeit then extractedData.uhrzeit else newTime
      else newTime
    -- STEP 3: merge stored + new (new takes priority), persist changes
    let finalDate := pyOrStr newDate storedDate
    let finalTime := pyOrStr newTime storedTime
    let updDatum := if pyTruthy newDate && newDate ≠ storedDate then newDate else none
    let updUhrzeit := if pyTruthy newTime && newTime ≠ storedTime then newTime else none
    let customer :=
      if updDatum.isSome || updUhrzeit.isSome then
        update_profil customer { datum := updDatum, uhrzeit := updUhrzeit }
      else customer
    -- STEP 4: check what's missing
    if pyTruthy finalDate && !pyTruthy finalTime then
      (BotMessages.missing_time (format_date_german (finalDate.getD "")), customer)
    else if pyTruthy finalTime && !pyTruthy finalDate then
      ("An welchem Tag möchtest du vorbeikommen? 📅", customer)
    else
      match build_datetime_iso finalDate finalTime tzOffset with
      | none => (reply, customer)
      | some startDateTime =>
        -- STEP 5: personal data and booking
        let magiclineCustomerId := profil.magicline_customer_id
        let viaRegistered := pyTruthyInt magiclineCustomerId
        let attempt : Option (Bool × String × Option Nat) :=
          if viaRegistered then
            some (try_book env.validateSlotResp env.bookResp
              (magiclineCustomerId.getD 0) startDateTime 30)
          else
            let vorname := pyOrStr storedVorname
              (if customer.name ≠ BotMessages.DEFAULT_NAME then some customer.name else none)
            let nachname := storedNachname
            let email := storedEmail
            let missingFields :=
              (if !pyTruthy vorname then ["Vorname"] else []) ++
              (if !pyTruthy nachname then ["Nachname"] else []) ++
              (if !pyTruthy email then ["E-Mail-Adresse"] else [])
            if !missingFields.isEmpty then none
            else
              some (try_book_trial_offer env (vorname.getD "") (nachname.getD "")
                (email.getD "") startDateTime 30).1
        match attempt with
        | none =>
          let missingFields :=
            (if !pyTruthy (pyOrStr storedVorname
                (if customer.name ≠ BotMessages.DEFAULT_NAME then some customer.name
                 else none)) then ["Vorname"] else []) ++
            (if !pyTruthy storedNachname then ["Nachname"] else []) ++
            (if !pyTruthy storedEmail then ["E-Mail-Adresse"] else [])
          (BotMessages.missing_booking_data missingFields, customer)
        | some (success, message, bookingId) =>
          if success then
            let bookingType := if viaRegistered then "regular" else "trial_offer"
            let customer := add_booking customer bookingId startDateTime bookingType
            let customer := update_status customer CustomerStatus.TRIAL_BOOKED
            ("✅ " ++ message, customer)
          else ("❌ " ++ message, customer)

/-- The minute-distance of an emitted alternative time from the
requested time, for stating the sortedness of
`_get_alternative_slots`. -/
def distKey (tm : Int) (t : String) : Int := |(time_to_minutes t).getD 0 - tm|

/-! ### Concrete fixtures for witnesses and counterexamples -/

/-- A concrete current time: 2026-10-12, 12:00:00 local. -/
def exampleNow : PyDateTime := ⟨2026, 10, 12, 43200⟩

def mkSlot (t : String) : Slot := { startDateTime := some ("2025-01-20T" ++ t ++ ":00+01:00") }

/-- The day's slots of the spec's end-to-end scenario 2. -/
def exampleDaySlots : List Slot :=
  [mkSlot "09:00", mkSlot "10:00", mkSlot "11:00", mkSlot "14:00", mkSlot "15:00",
   mkSlot "16:00"]

/-- An environment in which every provider call succeeds and the day has
the scenario-2 slots. -/
def exampleEnv : MLEnv :=
  { slotsResp := .ok 200 exampleDaySlots ""
    validateSlotResp := .ok 200 { validationStatus := some "AVAILABLE" } ""
    bookResp := .ok 200 { success := some true, bookingId := some 123456 } ""
    validateLeadResp := .ok 200 { success := some true } ""
    createLeadResp := .ok 200 { success := some true, leadCustomerId := some 67890 } ""
    validateApptResp := .ok 200 { success := some true, validationStatus := some "AVAILABLE" } ""
    bookApptResp := .ok 200 { success := some true, bookingId := some 999999 } "" }

/-- Same environment but with the day-slots pre-check unreachable
(transport exception), which makes the new-lead flow fall back and
succeed for every requested datetime. -/
def exampleEnvPrecheckDown : MLEnv :=
  { exampleEnv with slotsResp := .exception "connection timed out" }

/-- A customer whose profile already holds all five booking fields. -/
def exampleCompleteCustomer : Customer :=
  { name := "Max", status := CustomerStatus.NAME_KNOWN,
    profil := { vorname := some "Max", nachname := some "Mustermann",
                email := some "max@test.de", datum := some "2025-01-20",
                uhrzeit := some "14:00" } }

/-! ## Theorems -/

/-- **C1** (code bug evidence).  The message "Ich will einen Termin
machen" carries no date-bearing cue, yet the extraction pipeline keeps
the LM-proposed date `2026-10-20` (a date inside the plausibility
window): `_validate_extracted_data` never consults the message text, so
no hallucination guard exists and the reconciled date field is *not*
none, contradicting the claim and the repository's own
`TestDateHallucinationPrevention` tests. -/
theorem c1_llm_date_survives_without_cue :
    hasDateCue "Ich will einen Termin machen" = false ∧
    (extract_customer_data { datum := some "2026-10-20" } "Ich will einen Termin machen"
        exampleNow).datum = some "2026-10-20" := by
  constructor
  · decide
  · decide

/-- **C8** (code bug evidence).  `_is_valid_name` implements only the
length and letter-ratio checks — there is no blacklist.  Consequently
`"Emailadresse"` is accepted (the claim and the repository's
`test_session_changes.py` tests require it to be rejected), while the
length and ratio examples behave as claimed. -/
theorem c8_is_valid_name_has_no_blacklist :
    is_valid_name "Emailadresse" = true ∧
    is_valid_name "Max" = true ∧
    is_valid_name "A" = false ∧
    is_valid_name "Max123" = false ∧
    is_valid_name "Maxxxx1" = true := by
  refine ⟨by decide, by decide, by decide, by decide, by decide⟩

/-- **C5** (counterexample).  In the registered-customer flow an HTTP 500
from the slot-validation endpoint (whose JSON body carries no
`validationStatus`) surfaces the generic slot-unavailable message, not
the SERVER_ERROR message: `validate_slot` returns `response.json()`
without ever inspecting the status code. -/
theorem c5_http500_gives_unavailable_not_server_error :
    try_book (.ok 500 { validationStatus := none, error := none } "Internal Server Error")
        (.ok 200 { success := some true, bookingId := some 1 } "") 12345
        "2025-01-20T14:00:00+01:00" 30 =
      (false, BotMessages.BOOKING_SLOT_UNAVAILABLE, none) ∧
    BotMessages.BOOKING_SLOT_UNAVAILABLE ≠ BotMessages.BOOKING_SERVER_ERROR := by
  exact ⟨by decide, by decide⟩

/-- **C5** (amended).  In the existing-customer flow the HTTP status of
the slot-validation response is ignored: whenever the returned body's
`validationStatus` is not exactly `"AVAILABLE"` — in particular for any
5xx response — the surfaced message is the generic slot-unavailable
message, and `try_book` can never surface the SERVER_ERROR message. -/
theorem c5_amended_try_book_ignores_status (status : Nat) (body : VSBody) (text : String)
    (bresp : HttpResp BookBody) (cid : Int) (sdt : String) (dur : Nat)
    (h : body.validationStatus ≠ some "AVAILABLE") :
    try_book (.ok status body text) bresp cid sdt dur =
      (false, BotMessages.BOOKING_SLOT_UNAVAILABLE, none) ∧
    ∀ vresp : HttpResp VSBody,
      (try_book vresp bresp cid sdt dur).2.1 ≠ BotMessages.BOOKING_SERVER_ERROR := by
  constructor
  · unfold try_book validate_slot
    simp [h]
  · intro vresp
    unfold try_book
    by_cases hv : (validate_slot vresp).validationStatus = some "AVAILABLE"
    · simp only [hv, ne_eq, not_true_eq_false, if_false, ite_false]
      by_cases hb : (book_appointment bresp).success <;> simp [hb] <;> decide
    · simp only [ne_eq, hv, not_false_eq_true, if_true, ite_true]
      decide

theorem c5_amended_witness :
    try_book (.ok 500 ({ validationStatus := none, error := none } : VSBody) "err")
        (.ok 200 ({ success := some true, bookingId := some 1 } : BookBody) "") 7
        "2025-01-20T14:00:00+01:00" 30 =
      (false, BotMessages.BOOKING_SLOT_UNAVAILABLE, none) :=
  (c5_amended_try_book_ignores_status 500 { validationStatus := none, error := none } "err"
    (.ok 200 { success := some true, bookingId := some 1 } "") 7
    "2025-01-20T14:00:00+01:00" 30 (by decide)).1

/-- **C3** (confirmed).  When the pre-check's day-level slot fetch
succeeds (HTTP 200, no transport error), the returned slot list is
non-empty and the requested time is not in it, `try_book_trial_offer`
returns early with `(false, alternatives-suggestion message, none)` and
the call log shows zero invocations of lead validation, lead creation,
lead-appointment validation and lead-appointment booking. -/
theorem c3_precheck_conflict_creates_no_lead (env : MLEnv) (fn ln em sdt : String)
    (dur : Nat) (slots : List Slot) (txt : String)
    (hresp : env.slotsResp = .ok 200 slots txt)
    (hne : sdt ≠ "")
    (hnonempty : slots ≠ [])
    (hnotin : is_slot_in_list sdt slots = false) :
    try_book_trial_offer env fn ln em sdt dur =
      ((false,
        BotMessages.slot_unavailable_with_alternatives (get_alternative_slots sdt slots 3),
        none),
       { getSlots := 1, validateLead := 0, createLead := 0, validateAppt := 0,
         bookAppt := 0 }) := by
  have hdate : extract_date_from_datetime sdt = some (String.mk (sdt.data.take 10)) := by
    unfold extract_date_from_datetime
    rw [if_neg hne]
  have hcheck : check_slot_availability env.slotsResp sdt =
      { available := false, alternatives := get_alternative_slots sdt slots 3,
        error := none, apiError := false } := by
    unfold check_slot_availability
    rw [hdate, hresp]
    simp [get_available_slots, hnotin, hnonempty]
  unfold try_book_trial_offer
  rw [hcheck]
  simp only [Bool.not_false, if_pos rfl, if_neg hne]
  cases halts : (get_alternative_slots sdt slots 3).isEmpty with
  | false => simp [halts]
  | true =>
    simp only [halts, Bool.not_true, Bool.false_eq_true, if_false]
    rw [List.isEmpty_iff.mp halts]
    rfl

theorem c3_witness :
    try_book_trial_offer exampleEnv "Max" "Mustermann" "max@test.de"
        "2025-01-20T12:00:00+01:00" 30 =
      ((false,
        BotMessages.slot_unavailable_with_alternatives
          (get_alternative_slots "2025-01-20T12:00:00+01:00" exampleDaySlots 3),
        none),
       { getSlots := 1, validateLead := 0, createLead := 0, validateAppt := 0,
         bookAppt := 0 }) :=
  c3_precheck_conflict_creates_no_lead exampleEnv "Max" "Mustermann" "max@test.de"
    "2025-01-20T12:00:00+01:00" 30 exampleDaySlots "" rfl (by decide) (by decide) (by decide)

/-- **C6** (confirmed).  In the new-lead flow (here entered through an
available pre-check), lead validation and lead creation each classify
failures three ways and abort: a transport exception yields the
NETWORK_ERROR message, an HTTP status ≥ 500 yields the SERVER_ERROR
message, any other non-200 status yields VALIDATION_FAILED
(validation) or LEAD_CREATION_FAILED (creation); a 200 creation
response whose body lacks a (truthy) `leadCustomerId` also yields
LEAD_CREATION_FAILED; and in every case the result is
`(false, message, none)` with the later steps never invoked. -/
theorem c6_lead_step_error_classification (env : MLEnv) (fn ln em sdt : String) (dur : Nat)
    (slots : List Slot) (txt : String)
    (hresp : env.slotsResp = .ok 200 slots txt)
    (hne : sdt ≠ "")
    (hin : is_slot_in_list sdt slots = true) :
    (∀ msg, env.validateLeadResp = .exception msg →
      try_book_trial_offer env fn ln em sdt dur =
        ((false, BotMessages.BOOKING_NETWORK_ERROR, none),
         { getSlots := 1, validateLead := 1, createLead := 0, validateAppt := 0,
           bookAppt := 0 })) ∧
    (∀ st body btxt, env.validateLeadResp = .ok st body btxt → st ≠ 200 → 500 ≤ st →
      try_book_trial_offer env fn ln em sdt dur =
        ((false, BotMessages.BOOKING_SERVER_ERROR, none),
         { getSlots := 1, validateLead := 1, createLead := 0, validateAppt := 0,
           bookAppt := 0 })) ∧
    (∀ st body btxt, env.validateLeadResp = .ok st body btxt → st ≠ 200 → st < 500 →
      try_book_trial_offer env fn ln em sdt dur =
        ((false, BotMessages.BOOKING_VALIDATION_FAILED, none),
         { getSlots := 1, validateLead := 1, createLead := 0, validateAppt := 0,
           bookAppt := 0 })) ∧
    (∀ vbody vtxt, env.validateLeadResp = .ok 200 vbody vtxt → vbody.success.getD true = true →
      (∀ msg, env.createLeadResp = .exception msg →
        try_book_trial_offer env fn ln em sdt dur =
          ((false, BotMessages.BOOKING_NETWORK_ERROR, none),
           { getSlots := 1, validateLead := 1, createLead := 1, validateAppt := 0,
             bookAppt := 0 })) ∧
      (∀ st body btxt, env.createLeadResp = .ok st body btxt → st ≠ 200 → 500 ≤ st →
        try_book_trial_offer env fn ln em sdt dur =
          ((false, BotMessages.BOOKING_SERVER_ERROR, none),
           { getSlots := 1, validateLead := 1, createLead := 1, validateAppt := 0,
             bookAppt := 0 })) ∧
      (∀ st body btxt, env.createLeadResp = .ok st body btxt → st ≠ 200 → st < 500 →
        try_book_trial_offer env fn ln em sdt dur =
          ((false, BotMessages.BOOKING_LEAD_CREATION_FAILED, none),
           { getSlots := 1, validateLead := 1, createLead := 1, validateAppt := 0,
             bookAppt := 0 })) ∧
      (∀ body btxt, env.createLeadResp = .ok 200 body btxt → body.success.getD true = true →
        pyTruthyInt body.leadCustomerId = false →
        try_book_trial_offer env fn ln em sdt dur =
          ((false, BotMessages.BOOKING_LEAD_CREATION_FAILED, none),
           { getSlots := 1, validateLead := 1, createLead := 1, validateAppt := 0,
             bookAppt := 0 }))) := by
  have hdate : extract_date_from_datetime sdt = some (String.mk (sdt.data.take 10)) := by
    unfold extract_date_from_datetime
    rw [if_neg hne]
  have hslotsne : slots ≠ [] := by
    intro hnil
    rw [hnil] at hin
    simp [is_slot_in_list] at hin
  have hcheck : check_slot_availability env.slotsResp sdt =
      { available := true, alternatives := [], error := none, apiError := false } := by
    unfold check_slot_availability
    rw [hdate, hresp]
    simp [get_available_slots, hin, hslotsne]
  refine ⟨?_, ?_, ?_, ?_⟩
  · intro msg hv
    unfold try_book_trial_offer
    rw [hcheck, hv]
    simp [validate_lead, leadEndpointResult, if_neg hne]
  · intro st body btxt hv hst h500
    unfold try_book_trial_offer
    rw [hcheck, hv]
    simp [validate_lead, leadEndpointResult, if_neg hne, if_neg hst, h500]
  · intro st body btxt hv hst h500
    unfold try_book_trial_offer
    rw [hcheck, hv]
    simp [validate_lead, leadEndpointResult, if_neg hne, if_neg hst,
      Nat.not_le.mpr h500]
  · intro vbody vtxt hv hvs
    refine ⟨?_, ?_, ?_, ?_⟩
    · intro msg hc
      unfold try_book_trial_offer
      rw [hcheck, hv, hc]
      simp [validate_lead, create_lead, leadEndpointResult, if_neg hne, hvs]
    · intro st body btxt hc hst h500
      unfold try_book_trial_offer
      rw [hcheck, hv, hc]
      simp [validate_lead, create_lead, leadEndpointResult, if_neg hne, hvs, if_neg hst,
        h500]
    · intro st body btxt hc hst h500
      unfold try_book_trial_offer
      rw [hcheck, hv, hc]
      simp [validate_lead, create_lead, leadEndpointResult, if_neg hne, hvs, if_neg hst,
        Nat.not_le.mpr h500]
    · intro body btxt hc hcs hid
      unfold try_book_trial_offer
      rw [hcheck, hv, hc]
      simp [validate_lead, create_lead, leadEndpointResult, if_neg hne, hvs, hcs, hid]

theorem c6_witness :
    try_book_trial_offer
        { exampleEnv with validateLeadResp := .exception "connection refused" }
        "Max" "Mustermann" "max@test.de" "2025-01-20T14:00:00+01:00" 30 =
      ((false, BotMessages.BOOKING_NETWORK_ERROR, none),
       { getSlots := 1, validateLead := 1, createLead := 0, validateAppt := 0,
         bookAppt := 0 }) :=
  (c6_lead_step_error_classification
      { exampleEnv with validateLeadResp := .exception "connection refused" }
      "Max" "Mustermann" "max@test.de" "2025-01-20T14:00:00+01:00" 30 exampleDaySlots ""
      rfl (by decide) (by decide)).1 "connection refused" rfl

/-- Every pair collected by `_get_alternative_slots` records exactly the
minute-distance of its own time string from the requested time. -/
theorem slotDistancePairs_snd (tm : Int) (slots : List Slot) :
    ∀ p ∈ slotDistancePairs tm slots, p.2 = distKey tm p.1 := by
  intro p hp
  obtain ⟨slot, -, hf⟩ := List.mem_filterMap.mp hp
  unfold distKey
  split at hf
  · simp at hf
  · split_ifs at hf
    split at hf
    · simp at hf
    · split_ifs at hf
      split at hf
      · simp at hf
      · rename_i sm hsm
        simp only [Option.some.injEq] at hf
        rw [← hf]
        simp [hsm]

/-- **C4** (counterexample).  For the spec's scenario-2 slots and a
12:00 request, the computed alternatives are `["11:00", "10:00",
"14:00"]` — the stable sort keeps 10:00 (distance 120, earlier in the
day list) ahead of the equally distant 14:00 and 09:00 (distance 180)
never makes the cut — so the claimed `["11:00", "14:00", "09:00"]` is
wrong. -/
theorem c4_counterexample :
    get_alternative_slots "2025-01-20T12:00:00+01:00" exampleDaySlots 3 =
      ["11:00", "10:00", "14:00"] ∧
    get_alternative_slots "2025-01-20T12:00:00+01:00" exampleDaySlots 3 ≠
      ["11:00", "14:00", "09:00"] := by
  exact ⟨by decide, by decide⟩

/-- **C4** (amended).  The alternative-slot computation returns at most
3 times, sorted by absolute minute-distance from the requested time
(ties broken by the day list's order, since the sort is stable); for
day slots 09:00–16:00 and requested time 12:00 the alternatives list is
exactly `["11:00", "10:00", "14:00"]`. -/
theorem c4_amended_alternatives_sorted (target : String) (slots : List Slot) (tm : Int)
    (htm : time_to_minutes ((extract_time_from_datetime (some target)).getD "") = some tm) :
    (get_alternative_slots target slots 3).length ≤ 3 ∧
    List.Pairwise (fun t1 t2 => distKey tm t1 ≤ distKey tm t2)
      (get_alternative_slots target slots 3) ∧
    get_alternative_slots "2025-01-20T12:00:00+01:00" exampleDaySlots 3 =
      ["11:00", "10:00", "14:00"] := by
  refine ⟨?_, ?_, by decide⟩ <;>
  · unfold get_alternative_slots
    by_cases hempty : slots.isEmpty
    · simp [hempty]
    · rw [if_neg hempty]
      by_cases htr : pyTruthy (extract_time_from_datetime (some target))
      · simp only [htr, Bool.not_true, Bool.false_eq_true, if_false, ite_false, htm]
        first
        | -- length bound
          calc ((((slotDistancePairs tm slots).insertionSort distLE).take 3).map
                Prod.fst).length
              = (((slotDistancePairs tm slots).insertionSort distLE).take 3).length :=
                List.length_map _ _
            _ ≤ 3 := by
                rw [List.length_take]
                exact min_le_left _ _
        | -- sortedness
          refine List.pairwise_map.mpr ?_
          have hsorted : List.Pairwise distLE
              ((slotDistancePairs tm slots).insertionSort distLE) :=
            List.sorted_insertionSort distLE (slotDistancePairs tm slots)
          have htake : List.Pairwise distLE
              (((slotDistancePairs tm slots).insertionSort distLE).take 3) :=
            List.Pairwise.sublist (List.take_sublist 3 _) hsorted
          refine htake.imp_of_mem ?_
          intro a b ha hb hab
          have hmem : ∀ p, p ∈ (((slotDistancePairs tm slots).insertionSort distLE).take 3) →
              p.2 = distKey tm p.1 := by
            intro p hp
            exact slotDistancePairs_snd tm slots p
              ((List.mem_insertionSort distLE).mp ((List.take_sublist 3 _).subset hp))
          have ha2 := hmem a ha
          have hb2 := hmem b hb
          rw [← ha2, ← hb2]
          exact hab
      · -- target time untruthy: the fallback branch keeps the day order
        simp only [Bool.not_eq_true] at htr
        simp only [htr, Bool.not_false, if_true, ite_true]
        first
        | -- length bound
          calc ((slots.take 3).filterMap _).length
              ≤ (slots.take 3).length := List.length_filterMap_le _ _
            _ ≤ 3 := by rw [List.length_take]; exact min_le_left _ _
        | -- sortedness: impossible, `htm` forces a parsable target time
          exact absurd htm (by
            unfold pyTruthy at htr
            cases hx : extract_time_from_datetime (some target) with
            | none => simp [hx, time_to_minutes]
            | some s =>
              rw [hx] at htr
              simp only [ne_eq, decide_eq_false_iff_not, not_not] at htr
              simp [hx, htr, time_to_minutes])

theorem c4_amended_witness :
    (get_alternative_slots "2025-01-20T12:00:00+01:00" exampleDaySlots 3).length ≤ 3 :=
  (c4_amended_alternatives_sorted "2025-01-20T12:00:00+01:00" exampleDaySlots 720
    (by decide)).1

/-! Shape lemmas for the time captures. -/

theorem matchTime2_shape {cs : List Char} {hs ms : List Char}
    (h : matchTime2 cs = some (hs, ms)) :
    hs.length = 2 ∧ hs.all isDigitCh = true ∧ ms.length = 2 ∧ ms.all isDigitCh = true := by
  unfold matchTime2 at h
  split at h
  · split_ifs at h with hd
    simp only [Option.some.injEq, Prod.mk.injEq] at h
    obtain ⟨h1, h2⟩ := h
    subst h1; subst h2
    simp_all
  · exact absurd h (by simp)

theorem matchTime1_shape {cs : List Char} {hs ms : List Char}
    (h : matchTime1 cs = some (hs, ms)) :
    hs.length = 1 ∧ hs.all isDigitCh = true ∧ ms.length = 2 ∧ ms.all isDigitCh = true := by
  unfold matchTime1 at h
  split at h
  · split_ifs at h with hd
    simp only [Option.some.injEq, Prod.mk.injEq] at h
    obtain ⟨h1, h2⟩ := h
    subst h1; subst h2
    simp_all
  · exact absurd h (by simp)

theorem searchTime_shape {cs : List Char} {hs ms : List Char}
    (h : searchTime cs = some (hs, ms)) :
    (hs.length = 1 ∨ hs.length = 2) ∧ hs.all isDigitCh = true ∧
      ms.length = 2 ∧ ms.all isDigitCh = true := by
  induction cs with
  | nil => exact absurd h (by simp [searchTime])
  | cons c rest ih =>
    rw [searchTime] at h
    cases h2 : matchTimeAt (c :: rest) with
    | some p =>
      rw [h2, Option.some_orElse'] at h
      simp only [Option.some.injEq] at h
      subst h
      unfold matchTimeAt at h2
      cases hm2 : matchTime2 (c :: rest) with
      | some q =>
        rw [hm2, Option.some_orElse'] at h2
        simp only [Option.some.injEq] at h2
        subst h2
        obtain ⟨a, b, c', d⟩ := matchTime2_shape hm2
        exact ⟨Or.inr a, b, c', d⟩
      | none =>
        rw [hm2, Option.none_orElse'] at h2
        obtain ⟨a, b, c', d⟩ := matchTime1_shape h2
        exact ⟨Or.inl a, b, c', d⟩
    | none =>
      rw [h2, Option.none_orElse'] at h
      exact ih h

theorem matchUhrAt_shape {cs : List Char} {hs : List Char} (h : matchUhrAt cs = some hs) :
    (hs.length = 1 ∨ hs.length = 2) ∧ hs.all isDigitCh = true := by
  unfold matchUhrAt at h
  split at h
  · exact absurd h (by simp)
  · rename_i c1 rest
    by_cases h1 : isDigitCh c1 = true
    · rw [if_pos h1] at h
      split at h
      · exact absurd h (by simp)
      · rename_i c2 rest2
        by_cases h2 : (isDigitCh c2 && matchUhrAfter rest2) = true
        · rw [if_pos h2] at h
          simp only [Option.some.injEq] at h
          subst h
          simp_all [List.all_cons]
        · rw [if_neg h2] at h
          by_cases h3 : matchUhrAfter (c2 :: rest2) = true
          · rw [if_pos h3] at h
            simp only [Option.some.injEq] at h
            subst h
            simp_all [List.all_cons]
          · rw [if_neg h3] at h
            exact absurd h (by simp)
    · rw [if_neg h1] at h
      exact absurd h (by simp)

theorem searchUhr_shape {cs : List Char} {hs : List Char} (h : searchUhr cs = some hs) :
    (hs.length = 1 ∨ hs.length = 2) ∧ hs.all isDigitCh = true := by
  induction cs with
  | nil => exact absurd h (by simp [searchUhr])
  | cons c rest ih =>
    rw [searchUhr] at h
    cases h2 : matchUhrAt (c :: rest) with
    | some p =>
      rw [h2, Option.some_orElse'] at h
      simp only [Option.some.injEq] at h
      subst h
      exact matchUhrAt_shape h2
    | none =>
      rw [h2, Option.none_orElse'] at h
      exact ih h

theorem natOfDigits_cons_zero (s : List Char) : natOfDigits ('0' :: s) = natOfDigits s := by
  unfold natOfDigits
  simp only [List.foldl_cons]
  norm_num [digitVal]

theorem zfill2_shape {hs : List Char} (hlen : hs.length = 1 ∨ hs.length = 2)
    (hdig : hs.all isDigitCh = true) :
    (zfill2 hs).length = 2 ∧ (zfill2 hs).all isDigitCh = true ∧
      natOfDigits (zfill2 hs) = natOfDigits hs := by
  unfold zfill2
  rcases hlen with h1 | h2
  · rw [if_pos (by omega)]
    refine ⟨by simp [h1], ?_, natOfDigits_cons_zero hs⟩
    simp_all [List.all_cons]
    decide
  · rw [if_neg (by omega)]
    exact ⟨h2, hdig, rfl⟩

/-- **C9** (confirmed).  `extract_time_only` rejects out-of-range times
rather than clamping — `"25:00"` and `"10:60"` give none, the
boundaries `"0:00"` and `"23:59"` are accepted (with zero-padding) —
and, in general, every time it emits is a well-formed `HH:MM` with
hour ≤ 23 and minute ≤ 59. -/
theorem c9_extract_time_only_bounds :
    extract_time_only "25:00" = none ∧
    extract_time_only "10:60" = none ∧
    extract_time_only "0:00" = some "00:00" ∧
    extract_time_only "23:59" = some "23:59" ∧
    ∀ text t, extract_time_only text = some t → isValidHHMM t = true := by
  refine ⟨by decide, by decide, by decide, by decide, ?_⟩
  intro text t h
  have huhr : ∀ u, extract_time_uhr text = some u → isValidHHMM u = true := by
    intro u hu
    unfold extract_time_uhr at hu
    split at hu
    · rename_i ds hds
      split_ifs at hu with hb
      simp only [Option.some.injEq] at hu
      subst hu
      obtain ⟨hlen, hdig⟩ := searchUhr_shape hds
      obtain ⟨hl2, hd2, hval⟩ := zfill2_shape hlen hdig
      match hz : zfill2 ds with
      | [a, b] =>
        rw [hz] at hd2 hval
        show isValidHHMM (String.mk [a, b, ':', '0', '0']) = true
        unfold isValidHHMM
        simp_all [List.all_cons]
        decide
      | [] => rw [hz] at hl2; simp at hl2
      | [a] => rw [hz] at hl2; simp at hl2
      | a :: b :: c :: l => rw [hz] at hl2; simp at hl2
    · exact absurd hu (by simp)
  unfold extract_time_only at h
  split at h
  · rename_i ph pm hps
    split_ifs at h with hb
    · simp only [Option.some.injEq] at h
      subst h
      obtain ⟨hlen, hdig, hmlen, hmdig⟩ := searchTime_shape hps
      obtain ⟨hl2, hd2, hval⟩ := zfill2_shape hlen hdig
      simp only [Bool.and_eq_true, decide_eq_true_eq] at hb
      match hz : zfill2 ph with
      | [a, b] =>
        rw [hz] at hd2 hval
        match hm : pm with
        | [m1, m2] =>
          show isValidHHMM (String.mk [a, b, ':', m1, m2]) = true
          unfold isValidHHMM
          simp_all [List.all_cons]
        | [] => simp at hmlen
        | [m1] => simp at hmlen
        | m1 :: m2 :: m3 :: l => simp at hmlen
      | [] => rw [hz] at hl2; simp at hl2
      | [a] => rw [hz] at hl2; simp at hl2
      | a :: b :: c :: l => rw [hz] at hl2; simp at hl2
    · exact huhr t h
  · exact huhr t h

theorem c9_witness : isValidHHMM "23:59" = true :=
  c9_extract_time_only_bounds.2.2.2.2 "23:59" "23:59" (by decide)

theorem mergeField_mergeField {α : Type} (a b : Option α) :
    mergeField a (mergeField a b) = mergeField a b := by
  cases a <;> rfl

theorem mergeField_none {α : Type} (b : Option α) : mergeField none b = b := rfl

/-- **C10** (confirmed).  `update_profil` is idempotent — applying the
same partial update twice gives the same customer state as applying it
once — and never clears stored data: a field that is absent from the
update (which the source's `value is not None` test treats identically
to an explicit null) leaves the stored value unchanged, for every one
of the profile's fields. -/
theorem c10_update_profil_idempotent_never_clears (c : Customer) (u : ProfilUpdate) :
    update_profil (update_profil c u) u = update_profil c u ∧
    (u.magicline_customer_id = none →
      (update_profil c u).profil.magicline_customer_id = c.profil.magicline_customer_id) ∧
    (u.vorname = none → (update_profil c u).profil.vorname = c.profil.vorname) ∧
    (u.nachname = none → (update_profil c u).profil.nachname = c.profil.nachname) ∧
    (u.datum = none → (update_profil c u).profil.datum = c.profil.datum) ∧
    (u.uhrzeit = none → (update_profil c u).profil.uhrzeit = c.profil.uhrzeit) ∧
    (u.alter = none → (update_profil c u).profil.alter = c.profil.alter) ∧
    (u.geschlecht = none → (update_profil c u).profil.geschlecht = c.profil.geschlecht) ∧
    (u.wohnort = none → (update_profil c u).profil.wohnort = c.profil.wohnort) ∧
    (u.beruf = none → (update_profil c u).profil.beruf = c.profil.beruf) ∧
    (u.email = none → (update_profil c u).profil.email = c.profil.email) ∧
    (u.fitness_ziel = none →
      (update_profil c u).profil.fitness_ziel = c.profil.fitness_ziel) ∧
    (u.fitness_level = none →
      (update_profil c u).profil.fitness_level = c.profil.fitness_level) ∧
    (u.fitness_erfahrung = none →
      (update_profil c u).profil.fitness_erfahrung = c.profil.fitness_erfahrung) ∧
    (u.trainingsfrequenz = none →
      (update_profil c u).profil.trainingsfrequenz = c.profil.trainingsfrequenz) ∧
    (u.aktuelles_studio = none →
      (update_profil c u).profil.aktuelles_studio = c.profil.aktuelles_studio) ∧
    (u.gesundheitliche_einschraenkungen = none →
      (update_profil c u).profil.gesundheitliche_einschraenkungen =
        c.profil.gesundheitliche_einschraenkungen) ∧
    (u.budget_bewusst = none →
      (update_profil c u).profil.budget_bewusst = c.profil.budget_bewusst) ∧
    (u.zeitfenster = none →
      (update_profil c u).profil.zeitfenster = c.profil.zeitfenster) ∧
    (u.entscheidungstraeger = none →
      (update_profil c u).profil.entscheidungstraeger = c.profil.entscheidungstraeger) ∧
    (u.dringlichkeit = none →
      (update_profil c u).profil.dringlichkeit = c.profil.dringlichkeit) ∧
    (u.wie_gefunden = none →
      (update_profil c u).profil.wie_gefunden = c.profil.wie_gefunden) ∧
    (u.interesse_level = none →
      (update_profil c u).profil.interesse_level = c.profil.interesse_level) ∧
    (u.probetraining_datum = none →
      (update_profil c u).profil.probetraining_datum = c.profil.probetraining_datum) ∧
    (u.follow_up_datum = none →
      (update_profil c u).profil.follow_up_datum = c.profil.follow_up_datum) ∧
    (u.last_booking_id = none →
      (update_profil c u).profil.last_booking_id = c.profil.last_booking_id) := by
  have hprofil : (update_profil c u).profil = Profil.mk
      (mergeField u.magicline_customer_id c.profil.magicline_customer_id)
      (mergeField u.vorname c.profil.vorname)
      (mergeField u.nachname c.profil.nachname)
      (mergeField u.datum c.profil.datum)
      (mergeField u.uhrzeit c.profil.uhrzeit)
      (mergeField u.alter c.profil.alter)
      (mergeField u.geschlecht c.profil.geschlecht)
      (mergeField u.wohnort c.profil.wohnort)
      (mergeField u.beruf c.profil.beruf)
      (mergeField u.email c.profil.email)
      (mergeField u.fitness_ziel c.profil.fitness_ziel)
      (mergeField u.fitness_level c.profil.fitness_level)
      (mergeField u.fitness_erfahrung c.profil.fitness_erfahrung)
      (mergeField u.trainingsfrequenz c.profil.trainingsfrequenz)
      (mergeField u.aktuelles_studio c.profil.aktuelles_studio)
      (mergeField u.gesundheitliche_einschraenkungen
        c.profil.gesundheitliche_einschraenkungen)
      (mergeField u.budget_bewusst c.profil.budget_bewusst)
      (mergeField u.zeitfenster c.profil.zeitfenster)
      (mergeField u.entscheidungstraeger c.profil.entscheidungstraeger)
      (mergeField u.dringlichkeit c.profil.dringlichkeit)
      (mergeField u.wie_gefunden c.profil.wie_gefunden)
      (mergeField u.interesse_level c.profil.interesse_level)
      (mergeField u.probetraining_datum c.profil.probetraining_datum)
      (mergeField u.follow_up_datum c.profil.follow_up_datum)
      (mergeField u.last_booking_id c.profil.last_booking_id) := by
    unfold update_profil
    split_ifs <;> rfl
  refine ⟨?_, ?_, ?_, ?_, ?_, ?_, ?_, ?_, ?_, ?_, ?_, ?_, ?_, ?_, ?_, ?_, ?_, ?_, ?_, ?_,
    ?_, ?_, ?_, ?_, ?_, ?_⟩
  · -- idempotence
    have hname : (update_profil c u).name =
        (if pyTruthy u.vorname then u.vorname.getD ""
         else if pyTruthy u.name then u.name.getD "" else c.name) := by
      unfold update_profil
      split_ifs <;> rfl
    have hstatus : (update_profil c u).status =
        (if pyTruthy u.status then u.status.getD ""
         else if pyTruthy u.vorname then c.status
         else if pyTruthy u.name then c.status else c.status) := by
      unfold update_profil
      split_ifs <;> rfl
    conv_lhs => rw [update_profil]
    conv_rhs => rw [update_profil.eq_def]
    split_ifs <;>
      simp_all [hprofil, mergeField_mergeField, Customer.mk.injEq, Profil.mk.injEq]
  all_goals intro h
  all_goals rw [hprofil]
  all_goals rw [h]
  all_goals rfl

theorem c10_witness :
    update_profil (update_profil exampleCompleteCustomer { datum := some "2025-02-02" })
        { datum := some "2025-02-02" } =
      update_profil exampleCompleteCustomer { datum := some "2025-02-02" } ∧
    (update_profil exampleCompleteCustomer
        { datum := some "2025-02-02" }).profil.vorname =
      exampleCompleteCustomer.profil.vorname :=
  ⟨(c10_update_profil_idempotent_never_clears exampleCompleteCustomer
      { datum := some "2025-02-02" }).1,
   (c10_update_profil_idempotent_never_clears exampleCompleteCustomer
      { datum := some "2025-02-02" }).2.2.1 rfl⟩

theorem pyTruthy_some {s : String} (h : s ≠ "") : pyTruthy (some s) = true := by
  simp [pyTruthy, h]

theorem pyTruthy_pyOrStr (a b : Option String) :
    pyTruthy (pyOrStr a b) = (pyTruthy a || pyTruthy b) := by
  unfold pyOrStr
  split_ifs with ha <;> simp [ha]

theorem pyOrStr_of_truthy (a b : Option String) (h : pyTruthy a = true) :
    pyOrStr a b = a := by
  unfold pyOrStr
  rw [if_pos h]

theorem if_not_self_true (b : Bool) : (if (!b) = true then true else b) = true := by
  cases b <;> rfl

/-- **C2** (confirmed, with `add_booking` modelled from the spec).  In
any turn whose stored profile is complete, if the slot-reservation
protocol returns success with a booking id then the routes layer
persists that id into the profile's `last_booking_id`, advances the
customer status to the booked marker, and the surfaced reply is the
system success message prefixed with "✅" — the LM draft `reply` never
reaches the customer.  Both the new-lead flow and the
registered-customer flow are covered. -/
theorem c2_booking_success_persists_id_status_reply :
    (∀ (text reply : String) (ed : ExtractionData) (c : Customer) (env : MLEnv)
        (now : PyDateTime) (tz msg : String) (bid : Nat) (vn nn em dt tm : String),
      c.profil.vorname = some vn → vn ≠ "" →
      c.profil.nachname = some nn → nn ≠ "" →
      c.profil.email = some em → em ≠ "" →
      c.profil.datum = some dt → dt ≠ "" →
      c.profil.uhrzeit = some tm → tm ≠ "" →
      c.profil.magicline_customer_id = none →
      (∀ sdt, (try_book_trial_offer env vn nn em sdt 30).1 = (true, msg, some bid)) →
      ∃ c', handle_booking_if_needed text reply ed c env now tz = ("✅ " ++ msg, c') ∧
        c'.profil.last_booking_id = some bid ∧
        c'.status = CustomerStatus.TRIAL_BOOKED) ∧
    (∀ (text reply : String) (ed : ExtractionData) (c : Customer) (env : MLEnv)
        (now : PyDateTime) (tz msg : String) (bid : Nat) (cid : Int)
        (vn nn em dt tm : String),
      c.profil.vorname = some vn → vn ≠ "" →
      c.profil.nachname = some nn → nn ≠ "" →
      c.profil.email = some em → em ≠ "" →
      c.profil.datum = some dt → dt ≠ "" →
      c.profil.uhrzeit = some tm → tm ≠ "" →
      c.profil.magicline_customer_id = some cid → cid ≠ 0 →
      (∀ sdt, try_book env.validateSlotResp env.bookResp cid sdt 30 =
        (true, msg, some bid)) →
      ∃ c', handle_booking_if_needed text reply ed c env now tz = ("✅ " ++ msg, c') ∧
        c'.profil.last_booking_id = some bid ∧
        c'.status = CustomerStatus.TRIAL_BOOKED) := by
  constructor
  · intro text reply ed c env now tz msg bid vn nn em dt tm hvn hvn' hnn hnn' hem hem'
      hdt hdt' htm htm' hml hbook
    simp only [handle_booking_if_needed, hvn, hnn, hem, hdt, htm, hml,
      pyTruthy_some hvn', pyTruthy_some hnn', pyTruthy_some hem', pyTruthy_some hdt',
      pyTruthy_some htm', Bool.and_self, Bool.and_true, Bool.true_and, if_not_self_true,
      Bool.not_true, Bool.false_eq_true, if_false, ite_false, pyTruthy_pyOrStr,
      Bool.or_true, Bool.true_or, Bool.not_false, build_datetime_iso, ite_true, if_true,
      pyTruthyInt, pyOrStr_of_truthy _ _ (pyTruthy_some hvn'), Option.getD_some,
      List.isEmpty_nil, List.append_nil, List.nil_append, hbook]
    exact ⟨_, rfl, rfl, rfl⟩
  · intro text reply ed c env now tz msg bid cid vn nn em dt tm hvn hvn' hnn hnn' hem hem'
      hdt hdt' htm htm' hml hcid hbook
    simp only [handle_booking_if_needed, hvn, hnn, hem, hdt, htm, hml,
      pyTruthy_some hvn', pyTruthy_some hnn', pyTruthy_some hem', pyTruthy_some hdt',
      pyTruthy_some htm', Bool.and_self, Bool.and_true, Bool.true_and, if_not_self_true,
      Bool.not_true, Bool.false_eq_true, if_false, ite_false, pyTruthy_pyOrStr,
      Bool.or_true, Bool.true_or, Bool.not_false, build_datetime_iso, ite_true, if_true,
      pyTruthyInt, hcid, Option.getD_some, List.isEmpty_nil, List.append_nil,
      List.nil_append, hbook, ne_eq, not_false_eq_true, decide_eq_true_eq]
    exact ⟨_, rfl, rfl, rfl⟩

theorem c2_witness :
    ∃ c', handle_booking_if_needed "Probetraining am 20.01. um 14 Uhr" "LM draft reply"
        {} exampleCompleteCustomer exampleEnvPrecheckDown exampleNow "+01:00" =
      ("✅ " ++ BotMessages.BOOKING_SUCCESS, c') ∧
      c'.profil.last_booking_id = some 999999 ∧
      c'.status = CustomerStatus.TRIAL_BOOKED := by
  refine c2_booking_success_persists_id_status_reply.1 "Probetraining am 20.01. um 14 Uhr"
    "LM draft reply" {} exampleCompleteCustomer exampleEnvPrecheckDown exampleNow "+01:00"
    BotMessages.BOOKING_SUCCESS 999999 "Max" "Mustermann" "max@test.de" "2025-01-20"
    "14:00" rfl (by decide) rfl (by decide) rfl (by decide) rfl (by decide) rfl
    (by decide) rfl ?_
  intro sdt
  by_cases h : sdt = "" <;>
    simp [h, try_book_trial_offer, check_slot_availability, extract_date_from_datetime,
      get_available_slots, validate_lead, create_lead, leadEndpointResult,
      validate_appointment_for_lead, book_appointment, exampleEnvPrecheckDown, exampleEnv,
      pyTruthyInt]

/-! Calendar lemmas for the smart-year window invariant (C7). -/

theorem isValidDate_iff {y m d : Nat} :
    isValidDate y m d = true ↔
      1 ≤ y ∧ y ≤ 9999 ∧ 1 ≤ m ∧ m ≤ 12 ∧ 1 ≤ d ∧ d ≤ daysInMonth y m := by
  simp [isValidDate, Bool.and_eq_true, decide_eq_true_eq, and_assoc]

theorem leapsBefore_succ (y : Nat) (hy : 1 ≤ y) :
    leapsBefore (y + 1) = leapsBefore y + (if isLeapYear y then 1 else 0) := by
  obtain ⟨z, rfl⟩ : ∃ z, y = z + 1 := ⟨y - 1, by omega⟩
  have h1 : z / 100 ≤ z / 4 := Nat.div_le_div_left (by omega) (by omega)
  have h2 : z / 400 ≤ z / 100 := Nat.div_le_div_left (by omega) (by omega)
  have hmod4 : (z + 1) % 100 % 4 = (z + 1) % 4 := Nat.mod_mod_of_dvd _ (by norm_num)
  have hmod100 : (z + 1) % 400 % 100 = (z + 1) % 100 := Nat.mod_mod_of_dvd _ (by norm_num)
  unfold leapsBefore
  simp only [Nat.add_sub_cancel]
  rw [Nat.succ_div z 4, Nat.succ_div z 100, Nat.succ_div z 400]
  simp only [Nat.dvd_iff_mod_eq_zero]
  by_cases d4 : (z + 1) % 4 = 0 <;> by_cases d100 : (z + 1) % 100 = 0 <;>
    by_cases d400 : (z + 1) % 400 = 0 <;>
    simp [isLeapYear, d4, d100, d400] <;>
    omega

theorem dayOrdinal_year_succ (y m d : Nat) (hy : 1 ≤ y) (hm1 : 1 ≤ m) (hm2 : m ≤ 12) :
    dayOrdinal y m d + 365 ≤ dayOrdinal (y + 1) m d ∧
      dayOrdinal (y + 1) m d ≤ dayOrdinal y m d + 366 := by
  unfold dayOrdinal daysBeforeMonth
  rw [leapsBefore_succ y hy]
  simp only [Nat.add_sub_cancel]
  by_cases hm : 2 < m <;>
    by_cases l1 : isLeapYear y <;> by_cases l2 : isLeapYear (y + 1) <;>
    simp [hm, l1, l2] <;> omega

theorem daysInMonth_le_31 (y m : Nat) : daysInMonth y m ≤ 31 := by
  unfold daysInMonth
  split_ifs <;> omega

theorem dbm_d_le (y m d : Nat) (hv : isValidDate y m d = true) :
    daysBeforeMonth y m + (d - 1) ≤ 364 + (if isLeapYear y then 1 else 0) := by
  obtain ⟨-, -, hm1, hm2, hd1, hd2⟩ := isValidDate_iff.mp hv
  unfold daysBeforeMonth daysBeforeMonthNL
  unfold daysInMonth at hd2
  interval_cases m <;> by_cases l : isLeapYear y <;> simp_all <;> omega

theorem dayOrdinal_dec31 (y : Nat) :
    dayOrdinal y 12 31 = 365 * (y - 1) + leapsBefore y + 364 +
      (if isLeapYear y then 1 else 0) := by
  unfold dayOrdinal daysBeforeMonth daysBeforeMonthNL
  by_cases l : isLeapYear y <;> simp [l]

theorem dayOrdinal_jan1 (y : Nat) : dayOrdinal y 1 1 = 365 * (y - 1) + leapsBefore y := by
  unfold dayOrdinal daysBeforeMonth daysBeforeMonthNL
  simp

theorem dayOrdinal_le_dec31 (y m d : Nat) (hv : isValidDate y m d = true) :
    dayOrdinal y m d ≤ dayOrdinal y 12 31 := by
  have h2 := dbm_d_le y m d hv
  rw [dayOrdinal_dec31]
  unfold dayOrdinal
  omega

theorem dayOrdinal_ge_jan1 (y m d : Nat) : dayOrdinal y 1 1 ≤ dayOrdinal y m d := by
  rw [dayOrdinal_jan1]
  unfold dayOrdinal
  omega

theorem dayOrdinal_jan1_succ (y : Nat) (hy : 1 ≤ y) :
    dayOrdinal (y + 1) 1 1 = dayOrdinal y 12 31 + 1 := by
  rw [dayOrdinal_jan1, dayOrdinal_dec31, leapsBefore_succ y hy]
  by_cases l : isLeapYear y <;> simp [l] <;> omega

theorem dbm_succ_month (y m : Nat) (hm1 : 1 ≤ m) (hm2 : m ≤ 11) :
    daysBeforeMonth y (m + 1) = daysBeforeMonth y m + daysInMonth y m := by
  unfold daysBeforeMonth daysBeforeMonthNL daysInMonth
  interval_cases m <;> by_cases l : isLeapYear y <;> simp_all

theorem nextDay_spec (y m d : Nat) (hv : isValidDate y m d = true)
    (hlast : ¬(y = 9999 ∧ m = 12 ∧ d = 31)) :
    isValidDate (nextDay y m d).1 (nextDay y m d).2.1 (nextDay y m d).2.2 = true ∧
    dayOrdinal (nextDay y m d).1 (nextDay y m d).2.1 (nextDay y m d).2.2 =
      dayOrdinal y m d + 1 ∧
    ((nextDay y m d).1 = y ∨
      ((nextDay y m d).1 = y + 1 ∧ (nextDay y m d).2.1 = 1 ∧
        (nextDay y m d).2.2 = 1)) := by
  obtain ⟨hy1, hy2, hm1, hm2, hd1, hd2⟩ := isValidDate_iff.mp hv
  unfold nextDay
  by_cases h1 : d < daysInMonth y m
  · rw [if_pos h1]
    dsimp only
    refine ⟨isValidDate_iff.mpr ⟨hy1, hy2, hm1, hm2, by omega, by omega⟩, ?_, Or.inl rfl⟩
    unfold dayOrdinal
    omega
  · rw [if_neg h1]
    have hdeq : d = daysInMonth y m := by omega
    by_cases h2 : m < 12
    · rw [if_pos h2]
      dsimp only
      have hdim : 1 ≤ daysInMonth y (m + 1) := by
        unfold daysInMonth
        split_ifs <;> omega
      refine ⟨isValidDate_iff.mpr ⟨hy1, hy2, by omega, by omega, le_refl 1, hdim⟩, ?_,
        Or.inl rfl⟩
      have hstep := dbm_succ_month y m hm1 (by omega)
      unfold dayOrdinal
      omega
    · rw [if_neg h2]
      dsimp only
      have hm12 : m = 12 := by omega
      have hy9999 : y ≠ 9999 := by
        intro hy
        refine hlast ⟨hy, hm12, ?_⟩
        subst hm12
        have hdim : daysInMonth y 12 = 31 := by
          unfold daysInMonth
          split_ifs <;> simp_all
        omega
      have hdim : 1 ≤ daysInMonth (y + 1) 1 := by
        unfold daysInMonth
        split_ifs <;> omega
      refine ⟨isValidDate_iff.mpr ⟨by omega, by omega, le_refl 1, by omega, le_refl 1,
        hdim⟩, ?_, Or.inr ⟨rfl, rfl, rfl⟩⟩
      subst hm12
      have hd31 : d = 31 := by
        have hdim31 : daysInMonth y 12 = 31 := by
          unfold daysInMonth
          split_ifs <;> simp_all
        omega
      subst hd31
      have hL := leapsBefore_succ y hy1
      have h12 : daysBeforeMonth y 12 = 334 + (if isLeapYear y then 1 else 0) := by
        unfold daysBeforeMonth daysBeforeMonthNL
        by_cases l : isLeapYear y <;> simp [l]
      have h11 : daysBeforeMonth (y + 1) 1 = 0 := by
        unfold daysBeforeMonth daysBeforeMonthNL
        simp
      unfold dayOrdinal
      rw [hL, h12, h11]
      by_cases l : isLeapYear y <;> simp [l] <;> omega

/-! Format/parse round trip for `%Y-%m-%d`. -/

theorem digitChar_digit {n : Nat} (h : n < 10) : isDigitCh (Nat.digitChar n) = true := by
  interval_cases n <;> decide

theorem digitVal_digitChar {n : Nat} (h : n < 10) : digitVal (Nat.digitChar n) = n := by
  interval_cases n <;> decide

theorem digitChar_ne_dash {n : Nat} (h : n < 10) : Nat.digitChar n ≠ '-' := by
  interval_cases n <;> decide

theorem takeWhile_middle (p : Char → Bool) (l r : List Char) (c : Char)
    (hl : ∀ x ∈ l, p x = true) (hc : p c = false) :
    (l ++ c :: r).takeWhile p = l ∧ (l ++ c :: r).dropWhile p = c :: r := by
  induction l with
  | nil => simp [List.takeWhile, List.dropWhile, hc]
  | cons a as ih =>
    have ha : p a = true := hl a (by simp)
    have hrest := ih (fun x hx => hl x (by simp [hx]))
    simp only [List.cons_append, List.takeWhile_cons, List.dropWhile_cons, ha, if_true,
      ite_true]
    exact ⟨by rw [hrest.1], by rw [hrest.2]⟩

theorem natOfDigits_pad4 (y : Nat) (h : y < 10000) : natOfDigits (pad4 y) = y := by
  unfold pad4 natOfDigits
  simp only [List.foldl_cons, List.foldl_nil]
  rw [digitVal_digitChar (Nat.mod_lt _ (by omega)),
    digitVal_digitChar (Nat.mod_lt _ (by omega)),
    digitVal_digitChar (Nat.mod_lt _ (by omega)),
    digitVal_digitChar (Nat.mod_lt _ (by omega))]
  omega

theorem natOfDigits_pad2 (n : Nat) (h : n < 100) : natOfDigits (pad2 n) = n := by
  unfold pad2 natOfDigits
  simp only [List.foldl_cons, List.foldl_nil]
  rw [digitVal_digitChar (Nat.mod_lt _ (by omega)),
    digitVal_digitChar (Nat.mod_lt _ (by omega))]
  omega

theorem parseYMDStrict_formatYMD (y m d : Nat) (hv : isValidDate y m d = true)
    (hy : 1000 ≤ y) : parseYMDStrict (formatYMD y m d) = some (y, m, d) := by
  obtain ⟨hy1, hy2, hm1, hm2, hd1, hd2⟩ := isValidDate_iff.mp hv
  have hd31 : d ≤ 31 := le_trans hd2 (daysInMonth_le_31 y m)
  have hpad4 : ∀ x ∈ pad4 y, (decide (x ≠ '-')) = true := by
    intro x hx
    unfold pad4 at hx
    simp only [List.mem_cons, List.not_mem_nil, or_false] at hx
    rcases hx with rfl | rfl | rfl | rfl <;>
      simp [digitChar_ne_dash (Nat.mod_lt _ (by omega))]
  have hpad2m : ∀ x ∈ pad2 m, (decide (x ≠ '-')) = true := by
    intro x hx
    unfold pad2 at hx
    simp only [List.mem_cons, List.not_mem_nil, or_false] at hx
    rcases hx with rfl | rfl <;> simp [digitChar_ne_dash (Nat.mod_lt _ (by omega))]
  have hdash : (decide (('-' : Char) ≠ '-')) = false := by decide
  have hsplit1 := takeWhile_middle (fun x => decide (x ≠ '-')) (pad4 y)
    (pad2 m ++ '-' :: pad2 d) '-' hpad4 hdash
  have hsplit2 := takeWhile_middle (fun x => decide (x ≠ '-')) (pad2 m) (pad2 d) '-'
    hpad2m hdash
  have hdigits4 : (pad4 y).all isDigitCh = true := by
    unfold pad4
    simp [List.all_cons, digitChar_digit (Nat.mod_lt _ (by omega))]
  have hdigits2m : (pad2 m).all isDigitCh = true := by
    unfold pad2
    simp [List.all_cons, digitChar_digit (Nat.mod_lt _ (by omega))]
  have hdigits2d : (pad2 d).all isDigitCh = true := by
    unfold pad2
    simp [List.all_cons, digitChar_digit (Nat.mod_lt _ (by omega))]
  unfold parseYMDStrict formatYMD
  simp only [String.data]
  have hshape : (pad4 y ++ '-' :: pad2 m) ++ '-' :: pad2 d =
      pad4 y ++ '-' :: (pad2 m ++ '-' :: pad2 d) := by
    simp
  have hlen4 : (pad4 y).length = 4 := by unfold pad4; rfl
  have hlen2m : (pad2 m).length = 2 := by unfold pad2; rfl
  have hlen2d : (pad2 d).length = 2 := by unfold pad2; rfl
  rw [hshape, hsplit1.1, hsplit1.2]
  simp only [ne_eq, decide_not] at hsplit2
  simp [hsplit2.1, hsplit2.2, hdigits4, hdigits2m, hdigits2d, hlen4, hlen2m, hlen2d,
    natOfDigits_pad4 y (by omega), natOfDigits_pad2 m (by omega),
    natOfDigits_pad2 d (by omega), hv]

theorem smart_year_window (day month : Nat) (now : PyDateTime) (hnow : validNow now)
    (s : String) (h : build_date_with_smart_year day month now = some s) :
    ∃ yy mm dd, parseYMDStrict s = some (yy, mm, dd) ∧ isValidDate yy mm dd = true ∧
      toSecs now - 7 * 86400 ≤ dateSecs yy mm dd ∧
      dateSecs yy mm dd ≤ toSecs now + 366 * 86400 := by
  obtain ⟨hval, hsec, hy1000, hy9998⟩ := hnow
  simp only [build_date_with_smart_year] at h
  split_ifs at h with h1 h2 h3
  · -- more than 7 days in the past: rolled to next year
    simp only [Option.some.injEq] at h
    subst h
    obtain ⟨hy1, hy2, hmo1, hmo2, hdd1, hdd2⟩ := isValidDate_iff.mp h1
    refine ⟨now.y + 1, month, day, parseYMDStrict_formatYMD _ _ _ h3 (by omega), h3,
      ?_, ?_⟩
    · have ha := dayOrdinal_le_dec31 now.y now.m now.d hval
      have hb := dayOrdinal_jan1_succ now.y hy1
      have hc := dayOrdinal_ge_jan1 (now.y + 1) month day
      unfold toSecs dateSecs
      unfold toSecs dateSecs at h2
      omega
    · have ha := (dayOrdinal_year_succ now.y month day hy1 hmo1 hmo2).2
      unfold toSecs dateSecs
      unfold toSecs dateSecs at h2
      omega
  · -- kept in the current year
    simp only [Option.some.injEq] at h
    subst h
    refine ⟨now.y, month, day, parseYMDStrict_formatYMD _ _ _ h1 hy1000, h1, ?_, ?_⟩
    · unfold toSecs dateSecs
      unfold toSecs dateSecs at h2
      omega
    · have ha := dayOrdinal_le_dec31 now.y month day h1
      have hb := dayOrdinal_ge_jan1 now.y now.m now.d
      have hc := dayOrdinal_dec31 now.y
      have hd := dayOrdinal_jan1 now.y
      unfold toSecs dateSecs
      by_cases l : isLeapYear now.y <;> simp [l] at hc <;> omega

theorem tomorrow_in_window (now : PyDateTime) (hnow : validNow now) :
    ∃ yy mm dd,
      parseYMDStrict (formatYMD (nextDay now.y now.m now.d).1
        (nextDay now.y now.m now.d).2.1 (nextDay now.y now.m now.d).2.2) =
          some (yy, mm, dd) ∧
      isValidDate yy mm dd = true ∧
      toSecs now - 7 * 86400 ≤ dateSecs yy mm dd ∧
      dateSecs yy mm dd ≤ toSecs now + 366 * 86400 := by
  obtain ⟨hval, hsec, hy1000, hy9998⟩ := hnow
  obtain ⟨ht1v, ht1o, ht1y⟩ := nextDay_spec now.y now.m now.d hval (by omega)
  refine ⟨_, _, _, parseYMDStrict_formatYMD _ _ _ ht1v ?_, ht1v, ?_, ?_⟩
  · rcases ht1y with hh | ⟨hh, -, -⟩ <;> omega
  · unfold toSecs dateSecs
    omega
  · unfold toSecs dateSecs
    omega

theorem day_after_tomorrow_in_window (now : PyDateTime) (hnow : validNow now) :
    ∃ yy mm dd,
      parseYMDStrict (formatYMD
        (nextDay (nextDay now.y now.m now.d).1 (nextDay now.y now.m now.d).2.1
          (nextDay now.y now.m now.d).2.2).1
        (nextDay (nextDay now.y now.m now.d).1 (nextDay now.y now.m now.d).2.1
          (nextDay now.y now.m now.d).2.2).2.1
        (nextDay (nextDay now.y now.m now.d).1 (nextDay now.y now.m now.d).2.1
          (nextDay now.y now.m now.d).2.2).2.2) = some (yy, mm, dd) ∧
      isValidDate yy mm dd = true ∧
      toSecs now - 7 * 86400 ≤ dateSecs yy mm dd ∧
      dateSecs yy mm dd ≤ toSecs now + 366 * 86400 := by
  obtain ⟨hval, hsec, hy1000, hy9998⟩ := hnow
  obtain ⟨ht1v, ht1o, ht1y⟩ := nextDay_spec now.y now.m now.d hval (by omega)
  have hlast2 : ¬((nextDay now.y now.m now.d).1 = 9999 ∧
      (nextDay now.y now.m now.d).2.1 = 12 ∧ (nextDay now.y now.m now.d).2.2 = 31) := by
    rcases ht1y with hh | ⟨hh, hm1, -⟩
    · omega
    · rintro ⟨-, hc, -⟩
      omega
  obtain ⟨ht2v, ht2o, ht2y⟩ := nextDay_spec _ _ _ ht1v hlast2
  have hy2 : 1000 ≤ (nextDay (nextDay now.y now.m now.d).1
      (nextDay now.y now.m now.d).2.1 (nextDay now.y now.m now.d).2.2).1 := by
    rcases ht1y with hh | ⟨hh, -, -⟩ <;> rcases ht2y with hg | ⟨hg, -, -⟩ <;> omega
  refine ⟨_, _, _, parseYMDStrict_formatYMD _ _ _ ht2v hy2, ht2v, ?_, ?_⟩
  · unfold toSecs dateSecs
    omega
  · unfold toSecs dateSecs
    omega

/-- **C7** (counterexample).  The explicit `DD.MM.YYYY` branch of
`extract_date_only` returns the matched date verbatim, with no window or
validity check: on "25.12.2030" at current time 2026-10-12 it returns
`"2030-12-25"`, which parses fine but lies far beyond 366 days in the
future, so the claimed invariant fails for that path. -/
theorem c7_counterexample :
    validNow exampleNow ∧
    extract_date_only "25.12.2030" exampleNow = some "2030-12-25" ∧
    parseYMDStrict "2030-12-25" = some (2030, 12, 25) ∧
    dateSecs 2030 12 25 > toSecs exampleNow + 366 * 86400 := by
  refine ⟨by decide, by decide, by decide, by decide⟩

/-- **C7** (amended).  For every input string and valid current time,
any date produced by the relative-keyword paths (morgen/übermorgen) or
by the year-omitted smart-year paths re-parses as `YYYY-MM-DD` and lies
within the window from 7 days before to 366 days after now; only the
explicit `DD.MM.YYYY` branch (excluded by the hypothesis) escapes the
window, as it is returned without any check. -/
theorem c7_amended_smart_year_invariant (text : String) (now : PyDateTime) (d : String)
    (hnow : validNow now)
    (hnotfull : hasWordMorgen (pyLower text) = true ∨
      hasWordUebermorgen (pyLower text) = true ∨ searchFullDate text.data = none)
    (h : extract_date_only text now = some d) :
    ∃ yy mm dd, parseYMDStrict d = some (yy, mm, dd) ∧ isValidDate yy mm dd = true ∧
      toSecs now - 7 * 86400 ≤ dateSecs yy mm dd ∧
      dateSecs yy mm dd ≤ toSecs now + 366 * 86400 := by
  simp only [extract_date_only] at h
  split_ifs at h with h1 h2
  · simp only [Option.some.injEq] at h
    subst h
    exact tomorrow_in_window now hnow
  · simp only [Option.some.injEq] at h
    subst h
    exact day_after_tomorrow_in_window now hnow
  · have hfull : searchFullDate text.data = none := by
      rcases hnotfull with hm | hu | hn
      · exfalso
        apply h1
        rw [hm]
        cases hb : hasWordUebermorgen (pyLower text)
        · rfl
        · exact absurd hb h2
      · exact absurd hu h2
      · exact hn
    split at h
    · rename_i day mon year heq
      rw [hfull] at heq
      exact absurd heq (by simp)
    · split at h
      · rename_i day mon heq
        exact smart_year_window (natOfDigits day) (natOfDigits mon) now hnow d h
      · split at h
        · rename_i day mon heq
          exact smart_year_window (natOfDigits day) (natOfDigits mon) now hnow d h
        · exact absurd h (by simp)

theorem c7_amended_witness :
    ∃ yy mm dd, parseYMDStrict "2026-10-13" = some (yy, mm, dd) ∧
      isValidDate yy mm dd = true ∧
      toSecs exampleNow - 7 * 86400 ≤ dateSecs yy mm dd ∧
      dateSecs yy mm dd ≤ toSecs exampleNow + 366 * 86400 :=
  c7_amended_smart_year_invariant "morgen" exampleNow "2026-10-13" (by decide)
    (Or.inl (by decide)) (by decide)

end EasyFitness
